import Mathlib

/-!
Shallow embedding of the PoliceChief simulation core
(`policechief/models/profile.py`, `policechief/services/game_engine.py`,
`policechief/services/tick_engine.py`) together with theorems checking the
natural-language specification against it.

Modelling conventions:
* Python `datetime` timestamps are integers (seconds); `timedelta(minutes=m)`
  is `60 * m`.
* Python `float` arithmetic is modelled by exact rational arithmetic over
  `Frac`, an unnormalized fraction pair (kept kernel-computable so concrete
  runs can be settled by `decide`); `int(x)` (truncation toward zero) is
  `pyInt`.
* Python dicts with numeric values are total functions `String → ℕ` (missing
  key = 0, matching `dict.get(k, 0)`); dicts whose iteration order matters
  (catalogs, nested equipment-assignment maps) are association lists in
  insertion order.
* The random roll stream of the resolution engine is an explicit function
  `rolls : ℕ → ℤ` giving the i-th `random.randint(1, 100)` draw.
* The external ledger is a parameter: the current balance is an
  `Option ℤ` (`none` = unavailable) and apply/deposit outcomes are booleans.
-/

/-- Exact rational number as an unnormalized fraction; every value built by
the embedding keeps `den` positive. -/
structure Frac where
  num : ℤ
  den : ℤ
deriving DecidableEq, Repr

instance : IntCast Frac := ⟨fun n => ⟨n, 1⟩⟩

instance : NatCast Frac := ⟨fun n => ⟨n, 1⟩⟩

instance : OfNat Frac n := ⟨⟨n, 1⟩⟩

instance : Add Frac := ⟨fun a b => ⟨a.num * b.den + b.num * a.den, a.den * b.den⟩⟩

instance : Sub Frac := ⟨fun a b => ⟨a.num * b.den - b.num * a.den, a.den * b.den⟩⟩

instance : Mul Frac := ⟨fun a b => ⟨a.num * b.num, a.den * b.den⟩⟩

instance : Neg Frac := ⟨fun a => ⟨-a.num, a.den⟩⟩

/-- Fraction division, normalizing the sign so `den` stays positive. -/
def Frac.fdiv (a b : Frac) : Frac :=
  let n := a.num * b.den
  let d := a.den * b.num
  if d < 0 then ⟨-n, -d⟩ else ⟨n, d⟩

instance : Div Frac := ⟨Frac.fdiv⟩

/-- The rational value of a fraction (used only to state claims, never in
the embedded code). -/
def Frac.toRat (f : Frac) : ℚ := (f.num : ℚ) / (f.den : ℚ)

/-- Python `int(x)` for a float `x`: truncation toward zero
(`Int.tdiv` truncates toward zero, which is exact for positive `den`). -/
def pyInt (f : Frac) : ℤ := Int.tdiv f.num f.den

/-- Pointwise update of a total-function model of a Python dict. -/
def fupd {α : Type} (f : String → α) (k : String) (v : α) : String → α :=
  fun x => if x = k then v else f x

/-- Lookup in an association-list model of a Python dict (`d.get(k)`). -/
def lookupA {α : Type} (l : List (String × α)) (k : String) : Option α :=
  (l.find? (fun kv => kv.1 == k)).map Prod.snd

/-- Python `d[k] = v` on an association-list dict: update the existing entry
in place, or append a new one. -/
def setA {α : Type} (l : List (String × α)) (k : String) (v : α) :
    List (String × α) :=
  if (l.find? (fun kv => kv.1 == k)).isSome then
    l.map (fun kv => if kv.1 == k then (k, v) else kv)
  else l ++ [(k, v)]

/-- Keys of a list in order of first occurrence (the iteration order of a
Python `Counter` built from the list). -/
def dedupFirst : List String → List String
  | [] => []
  | x :: xs => x :: (dedupFirst xs).filter (fun y => !(y == x))

/-- `collections.Counter(l).items()` in iteration order. -/
def counterItems (l : List String) : List (String × ℕ) :=
  (dedupFirst l).map (fun k => (k, l.count k))

/-- Catalog entry: `models/vehicle.py` dataclass `Vehicle`.
The `equipment_slots` field is referenced by
`PlayerProfile.get_vehicle_slot_usage` but absent from the dataclass in the
available source; it is modelled from the spec (§3: vehicles carry an
"equipment slot count"). -/
structure Vehicle where
  name : String
  vehicle_type : String
  purchase_cost : ℤ
  maintenance_cost : ℤ
  fuel_efficiency : Frac
  cooldown_minutes : ℕ
  min_station_level : ℕ
  equipment_slots : ℕ
deriving DecidableEq, Repr

/-- Catalog entry: `models/staff.py` dataclass `Staff`. -/
structure Staff where
  name : String
  staff_type : String
  hire_cost : ℤ
  salary_per_tick : ℤ
  success_bonus : Frac
  cooldown_minutes : ℕ
  min_station_level : ℕ
  requires_vehicle : Bool
  equipment_slots : ℕ
deriving DecidableEq, Repr

/-- Catalog entry: `models/mission.py` dataclass `Mission`. -/
structure Mission where
  id : String
  name : String
  district : String
  required_vehicle_types : List String
  required_staff_types : List String
  base_reward : ℤ
  base_duration : ℕ
  base_success_chance : ℤ
  fuel_cost : ℤ
  heat_change : ℤ
  reputation_change_success : ℤ
  reputation_change_failure : ℤ
  min_station_level : ℕ
deriving DecidableEq, Repr

/-- Catalog entry: `models/district.py` dataclass `District`. -/
structure District where
  name : String
  unlock_cost : ℤ
  mission_reward_multiplier : Frac
  mission_difficulty_modifier : ℤ
  min_station_level : ℕ
deriving DecidableEq, Repr

/-- Catalog entry: `models/upgrade.py` dataclass `Upgrade`. -/
structure Upgrade where
  name : String
  cost : ℤ
  effect_type : String
  effect_value : Frac
  min_station_level : ℕ
  required_upgrade : Option String
deriving DecidableEq, Repr

/-- Catalog entry: `models/equipment.py` dataclass `Equipment`. -/
structure Equipment where
  name : String
  target : String
  purchase_cost : ℤ
  sell_value : ℤ
  effect_type : String
  effect_value : Frac
  slot_size : ℕ
  min_station_level : ℕ
  allowed_vehicle_types : List String
  allowed_staff_types : List String
deriving DecidableEq, Repr

/-- The optional filter keys of `Policy.mission_filters`
(`tick_engine._mission_matches_filters` reads `min_reward`, `max_reward`,
`districts`). -/
structure MissionFilters where
  min_reward : Option ℤ
  max_reward : Option ℤ
  districts : Option (List String)
deriving DecidableEq, Repr

/-- Catalog entry: `models/policy.py` dataclass `Policy`. -/
structure Policy where
  name : String
  mission_filters : MissionFilters
  priority : ℤ
  min_station_level : ℕ
deriving DecidableEq, Repr

/-- `services/content_loader.py` `ContentLoader`: the six catalogs, keyed by
string id, in load order. -/
structure ContentLoader where
  missions : List (String × Mission)
  vehicles : List (String × Vehicle)
  districts : List (String × District)
  staff : List (String × Staff)
  upgrades : List (String × Upgrade)
  policies : List (String × Policy)

/-- `models/profile.py` dataclass `ActiveMission`. -/
structure ActiveMission where
  mission_id : String
  name : String
  ends_at : ℤ
  dispatched_at : ℤ
  operating_cost : ℤ
  potential_reward : ℤ
  success_chance : ℤ
  heat_change : ℤ
  reputation_success : ℤ
  reputation_failure : ℤ
deriving DecidableEq, Repr

/-- `models/profile.py` dataclass `PlayerProfile`.  Count dicts are total
functions (missing key = 0); the nested `equipment_assignments` dict is split
into its two fixed target buckets `"vehicles"` and `"staff"`, each an
association list `target-id → (equipment-id → count)`. -/
structure PlayerProfile where
  user_id : ℤ
  station_level : ℕ
  current_district : String
  unlocked_districts : List String
  owned_vehicles : String → ℕ
  staff_roster : String → ℕ
  owned_upgrades : List String
  active_policies : List String
  equipment_inventory : String → ℕ
  vehicleAssignments : List (String × List (String × ℕ))
  staffAssignments : List (String × List (String × ℕ))
  active_missions : List ActiveMission
  heat_level : ℤ
  reputation : ℤ
  last_tick_ts : Option ℤ
  automation_enabled : Bool
  vehicle_cooldowns : String → List ℤ
  staff_cooldowns : String → List ℤ
  total_missions_completed : ℤ
  total_missions_failed : ℤ
  total_income_earned : ℤ
  total_expenses_paid : ℤ

/-- `profile.py` module constant. -/
def DISPATCH_BASE_TABLES : ℕ := 1

/-- `profile.py` module constant. -/
def DISPATCHER_STAFF_ID : String := "dispatcher"

/-- `profile.py` module constant. -/
def SPECIAL_FEATURE_ACCESS_USER_ID : ℤ := 132620654087241729

/-- `PlayerProfile.has_upgrade`. -/
def PlayerProfile.has_upgrade (p : PlayerProfile) (upgrade_id : String) : Bool :=
  p.owned_upgrades.contains upgrade_id

/-- `PlayerProfile.has_automation_access`. -/
def PlayerProfile.has_automation_access (p : PlayerProfile) : Bool :=
  p.has_upgrade "dispatch_center" || p.user_id == SPECIAL_FEATURE_ACCESS_USER_ID

/-- `PlayerProfile.get_vehicle_count`. -/
def PlayerProfile.get_vehicle_count (p : PlayerProfile) (vehicle_id : String) : ℕ :=
  p.owned_vehicles vehicle_id

/-- `PlayerProfile.get_staff_count`. -/
def PlayerProfile.get_staff_count (p : PlayerProfile) (staff_id : String) : ℕ :=
  p.staff_roster staff_id

/-- `PlayerProfile._prune_cooldowns` applied to `vehicle_cooldowns`: drop
entries with `timestamp ≤ now` (Python keeps `timestamp > now`). -/
def PlayerProfile.prune_vehicle_cooldowns (p : PlayerProfile) (now : ℤ) : PlayerProfile :=
  { p with vehicle_cooldowns := fun k => (p.vehicle_cooldowns k).filter (fun ts => now < ts) }

/-- `PlayerProfile._prune_cooldowns` applied to `staff_cooldowns`. -/
def PlayerProfile.prune_staff_cooldowns (p : PlayerProfile) (now : ℤ) : PlayerProfile :=
  { p with staff_cooldowns := fun k => (p.staff_cooldowns k).filter (fun ts => now < ts) }

/-- `PlayerProfile.get_available_vehicle_count`: owned minus unexpired
cooldown entries, clamped at 0 (ℕ subtraction), with the owned-zero early
return. -/
def PlayerProfile.get_available_vehicle_count (p : PlayerProfile) (vehicle_id : String)
    (now : ℤ) : ℕ :=
  let owned := p.get_vehicle_count vehicle_id
  if owned = 0 then 0
  else owned - ((p.vehicle_cooldowns vehicle_id).filter (fun ts => now < ts)).length

/-- `PlayerProfile.get_available_staff_count`. -/
def PlayerProfile.get_available_staff_count (p : PlayerProfile) (staff_id : String)
    (now : ℤ) : ℕ :=
  let owned := p.get_staff_count staff_id
  if owned = 0 then 0
  else owned - ((p.staff_cooldowns staff_id).filter (fun ts => now < ts)).length

/-- `PlayerProfile.is_vehicle_available`. -/
def PlayerProfile.is_vehicle_available (p : PlayerProfile) (vehicle_id : String)
    (now : ℤ) : Bool :=
  0 < p.get_available_vehicle_count vehicle_id now

/-- `PlayerProfile.is_staff_available`. -/
def PlayerProfile.is_staff_available (p : PlayerProfile) (staff_id : String)
    (now : ℤ) : Bool :=
  0 < p.get_available_staff_count staff_id now

/-- `PlayerProfile.remove_vehicle`: full depletion pops the count, the
cooldown entries and the vehicle's equipment-assignment bucket; partial
removal only decrements the count. -/
def PlayerProfile.remove_vehicle (p : PlayerProfile) (vehicle_id : String)
    (quantity : ℕ) : PlayerProfile :=
  let current := p.owned_vehicles vehicle_id
  if current ≤ quantity then
    { p with owned_vehicles := fupd p.owned_vehicles vehicle_id 0,
             vehicle_cooldowns := fupd p.vehicle_cooldowns vehicle_id [],
             vehicleAssignments := p.vehicleAssignments.filter (fun kv => !(kv.1 == vehicle_id)) }
  else if 0 < current then
    { p with owned_vehicles := fupd p.owned_vehicles vehicle_id (current - quantity) }
  else p

/-- `PlayerProfile.remove_staff`. -/
def PlayerProfile.remove_staff (p : PlayerProfile) (staff_id : String)
    (quantity : ℕ) : PlayerProfile :=
  let current := p.staff_roster staff_id
  if current ≤ quantity then
    { p with staff_roster := fupd p.staff_roster staff_id 0,
             staff_cooldowns := fupd p.staff_cooldowns staff_id [],
             staffAssignments := p.staffAssignments.filter (fun kv => !(kv.1 == staff_id)) }
  else if 0 < current then
    { p with staff_roster := fupd p.staff_roster staff_id (current - quantity) }
  else p

/-- Sum over one assignment bucket of the counts recorded for an equipment
id (the inner loop of `PlayerProfile.get_total_assigned_equipment`). -/
def assignedInBucket (bucket : List (String × List (String × ℕ)))
    (equipment_id : String) : ℕ :=
  (bucket.map (fun kv => (lookupA kv.2 equipment_id).getD 0)).sum

/-- `PlayerProfile.get_total_assigned_equipment`. -/
def PlayerProfile.get_total_assigned_equipment (p : PlayerProfile)
    (equipment_id : String) : ℕ :=
  assignedInBucket p.vehicleAssignments equipment_id +
    assignedInBucket p.staffAssignments equipment_id

/-- `PlayerProfile.get_unassigned_equipment` (`max(0, owned − assigned)`). -/
def PlayerProfile.get_unassigned_equipment (p : PlayerProfile)
    (equipment_id : String) : ℕ :=
  p.equipment_inventory equipment_id - p.get_total_assigned_equipment equipment_id

/-- `PlayerProfile.get_equipment_for_vehicle`. -/
def PlayerProfile.get_equipment_for_vehicle (p : PlayerProfile)
    (vehicle_id : String) : List (String × ℕ) :=
  (lookupA p.vehicleAssignments vehicle_id).getD []

/-- `PlayerProfile.get_equipment_for_staff`. -/
def PlayerProfile.get_equipment_for_staff (p : PlayerProfile)
    (staff_id : String) : List (String × ℕ) :=
  (lookupA p.staffAssignments staff_id).getD []

/-- `PlayerProfile._get_used_slots`: slot capacity consumed by assigned
items; an equipment id missing from the catalog contributes nothing. -/
def usedSlots (assignments : List (String × ℕ))
    (equipment_catalog : List (String × Equipment)) : ℕ :=
  (assignments.map (fun kv =>
    match lookupA equipment_catalog kv.1 with
    | some e => e.slot_size * kv.2
    | none => 0)).sum

/-- `PlayerProfile.get_vehicle_slot_usage`, as a pair `(used, total)`. -/
def PlayerProfile.get_vehicle_slot_usage (p : PlayerProfile) (vehicle_id : String)
    (vehicles : List (String × Vehicle))
    (equipment_catalog : List (String × Equipment)) : ℕ × ℕ :=
  let total := match lookupA vehicles vehicle_id with
    | some v => v.equipment_slots * p.get_vehicle_count vehicle_id
    | none => 0
  (usedSlots (p.get_equipment_for_vehicle vehicle_id) equipment_catalog, total)

/-- `PlayerProfile.get_staff_slot_usage`, as a pair `(used, total)`. -/
def PlayerProfile.get_staff_slot_usage (p : PlayerProfile) (staff_id : String)
    (staff_catalog : List (String × Staff))
    (equipment_catalog : List (String × Equipment)) : ℕ × ℕ :=
  let total := match lookupA staff_catalog staff_id with
    | some s => s.equipment_slots * p.get_staff_count staff_id
    | none => 0
  (usedSlots (p.get_equipment_for_staff staff_id) equipment_catalog, total)

/-- `PlayerProfile.assign_equipment_to_vehicle`: returns the success flag
and the (possibly unchanged) profile. -/
def PlayerProfile.assign_equipment_to_vehicle (p : PlayerProfile)
    (vehicle_id equipment_id : String) (quantity : ℕ)
    (vehicles : List (String × Vehicle))
    (equipment_catalog : List (String × Equipment)) : Bool × PlayerProfile :=
  match lookupA vehicles vehicle_id, lookupA equipment_catalog equipment_id with
  | some _, some equipment =>
    let current := p.get_equipment_for_vehicle vehicle_id
    let usage := p.get_vehicle_slot_usage vehicle_id vehicles equipment_catalog
    let available_slots := usage.2 - usage.1
    let needed_slots := equipment.slot_size * quantity
    if available_slots < needed_slots then (false, p)
    else if p.get_unassigned_equipment equipment_id < quantity then (false, p)
    else
      let updated := setA current equipment_id ((lookupA current equipment_id).getD 0 + quantity)
      (true, { p with vehicleAssignments := setA p.vehicleAssignments vehicle_id updated })
  | _, _ => (false, p)

/-- `PlayerProfile.assign_equipment_to_staff`. -/
def PlayerProfile.assign_equipment_to_staff (p : PlayerProfile)
    (staff_id equipment_id : String) (quantity : ℕ)
    (staff_catalog : List (String × Staff))
    (equipment_catalog : List (String × Equipment)) : Bool × PlayerProfile :=
  match lookupA staff_catalog staff_id, lookupA equipment_catalog equipment_id with
  | some _, some equipment =>
    let current := p.get_equipment_for_staff staff_id
    let usage := p.get_staff_slot_usage staff_id staff_catalog equipment_catalog
    let available_slots := usage.2 - usage.1
    let needed_slots := equipment.slot_size * quantity
    if available_slots < needed_slots then (false, p)
    else if p.get_unassigned_equipment equipment_id < quantity then (false, p)
    else
      let updated := setA current equipment_id ((lookupA current equipment_id).getD 0 + quantity)
      (true, { p with staffAssignments := setA p.staffAssignments staff_id updated })
  | _, _ => (false, p)

/-- `PlayerProfile.allocate_vehicles`: per requested id, clamp the quantity
to current availability and append that many copies of `cooldown_end`.  The
availability query inside the Python method prunes expired entries of the
whole `vehicle_cooldowns` dict as a side effect (unless it early-returns on
an unowned id), which this embedding reproduces.  This is the body of the
per-id loop. -/
def allocateVehiclesStep (cooldown_end now : ℤ) (q : PlayerProfile)
    (kv : String × ℕ) : PlayerProfile :=
  if kv.2 = 0 then q
  else
    let ready := q.get_available_vehicle_count kv.1 now
    let q1 := if q.get_vehicle_count kv.1 = 0 then q else q.prune_vehicle_cooldowns now
    let assigned := min kv.2 ready
    let entries := q1.vehicle_cooldowns kv.1 ++ List.replicate assigned cooldown_end
    { q1 with vehicle_cooldowns := fupd q1.vehicle_cooldowns kv.1 entries }

/-- `PlayerProfile.allocate_vehicles`: fold the per-id loop body over the
requested counts. -/
def PlayerProfile.allocate_vehicles (p : PlayerProfile)
    (vehicle_counts : List (String × ℕ)) (cooldown_end now : ℤ) : PlayerProfile :=
  vehicle_counts.foldl (allocateVehiclesStep cooldown_end now) p

/-- Body of the per-id loop of `PlayerProfile.allocate_staff`. -/
def allocateStaffStep (cooldown_end now : ℤ) (q : PlayerProfile)
    (kv : String × ℕ) : PlayerProfile :=
  if kv.2 = 0 then q
  else
    let ready := q.get_available_staff_count kv.1 now
    let q1 := if q.get_staff_count kv.1 = 0 then q else q.prune_staff_cooldowns now
    let assigned := min kv.2 ready
    let entries := q1.staff_cooldowns kv.1 ++ List.replicate assigned cooldown_end
    { q1 with staff_cooldowns := fupd q1.staff_cooldowns kv.1 entries }

/-- `PlayerProfile.allocate_staff`. -/
def PlayerProfile.allocate_staff (p : PlayerProfile)
    (staff_counts : List (String × ℕ)) (cooldown_end now : ℤ) : PlayerProfile :=
  staff_counts.foldl (allocateStaffStep cooldown_end now) p

/-- `PlayerProfile.add_active_mission`. -/
def PlayerProfile.add_active_mission (p : PlayerProfile) (m : ActiveMission) : PlayerProfile :=
  { p with active_missions := p.active_missions ++ [m] }

/-- `GameEngine.MINIMUM_BALANCE`. -/
def MINIMUM_BALANCE : ℤ := 100

/-- `GameEngine.PROFIT_MARGIN`. -/
def PROFIT_MARGIN : Frac := 1/10

/-- `GameEngine.PROFIT_PER_LEVEL`. -/
def PROFIT_PER_LEVEL : Frac := 15/1000

/-- `GameEngine.FAILURE_CHANCE_PENALTY`. -/
def FAILURE_CHANCE_PENALTY : Frac := 3

/-- `TickEngine.TICK_INTERVAL_MINUTES`. -/
def TICK_INTERVAL_MINUTES : ℕ := 5

/-- `TickEngine.MAX_CATCHUP_HOURS`. -/
def MAX_CATCHUP_HOURS : ℕ := 24

/-- `GameEngine.get_available_dispatcher_count`. -/
def get_available_dispatcher_count (p : PlayerProfile) (now : ℤ) : ℕ :=
  p.get_available_staff_count DISPATCHER_STAFF_ID now

/-- `GameEngine.has_active_dispatcher`. -/
def has_active_dispatcher (p : PlayerProfile) (now : ℤ) : Bool :=
  0 < get_available_dispatcher_count p now

/-- Summed availability across all catalog vehicles of one type (inner loop
of the vehicle check in `GameEngine.can_dispatch_mission`). -/
def vehicleTypeAvailability (content : ContentLoader) (p : PlayerProfile)
    (vehicle_type : String) (now : ℤ) : ℕ :=
  (content.vehicles.map (fun kv =>
    if kv.2.vehicle_type == vehicle_type then p.get_available_vehicle_count kv.1 now
    else 0)).sum

/-- Summed availability across all catalog staff of one type. -/
def staffTypeAvailability (content : ContentLoader) (p : PlayerProfile)
    (staff_type : String) (now : ℤ) : ℕ :=
  (content.staff.map (fun kv =>
    if kv.2.staff_type == staff_type then p.get_available_staff_count kv.1 now
    else 0)).sum

/-- First requirement `(type, quantity)` whose summed availability falls
short, per the requirement-check loops of `can_dispatch_mission`. -/
def firstUnmetVehicleReq (content : ContentLoader) (p : PlayerProfile) (now : ℤ) :
    List (String × ℕ) → Option (String × ℕ)
  | [] => none
  | (t, q) :: rest =>
    if vehicleTypeAvailability content p t now < q then some (t, q)
    else firstUnmetVehicleReq content p now rest

/-- Staff analogue of `firstUnmetVehicleReq`. -/
def firstUnmetStaffReq (content : ContentLoader) (p : PlayerProfile) (now : ℤ) :
    List (String × ℕ) → Option (String × ℕ)
  | [] => none
  | (t, q) :: rest =>
    if staffTypeAvailability content p t now < q then some (t, q)
    else firstUnmetStaffReq content p now rest

/-- `GameEngine.can_dispatch_mission`: `(can_dispatch, reason_if_not)`. -/
def can_dispatch_mission (content : ContentLoader) (p : PlayerProfile)
    (m : Mission) (now : ℤ) : Bool × String :=
  if !(has_active_dispatcher p now) then
    (false, "Dispatch Center requires a dispatcher on duty")
  else if p.station_level < m.min_station_level then
    (false, "Requires station level " ++ toString m.min_station_level)
  else
    match firstUnmetVehicleReq content p now (counterItems m.required_vehicle_types) with
    | some tq => (false, "Need " ++ toString tq.2 ++ " available " ++ tq.1 ++ " vehicle(s)")
    | none =>
      match firstUnmetStaffReq content p now (counterItems m.required_staff_types) with
      | some tq => (false, "Need " ++ toString tq.2 ++ " available " ++ tq.1 ++ " staff")
      | none => (true, "")

/-- `GameEngine.get_dispatch_table_count`. -/
def get_dispatch_table_count (content : ContentLoader) (p : PlayerProfile)
    (now : ℤ) : ℤ :=
  let tables : ℤ := max (DISPATCH_BASE_TABLES : ℤ) (get_available_dispatcher_count p now : ℤ)
  let tables := p.owned_upgrades.foldl (fun acc uid =>
    match lookupA content.upgrades uid with
    | some u => if u.effect_type == "dispatch_capacity" then acc + pyInt u.effect_value else acc
    | none => acc) tables
  max 1 tables

/-- `GameEngine.get_available_dispatch_slots`. -/
def get_available_dispatch_slots (content : ContentLoader) (p : PlayerProfile)
    (now : ℤ) : ℤ :=
  if !(has_active_dispatcher p now) then 0
  else max 0 (get_dispatch_table_count content p now - (p.active_missions.length : ℤ))

/-- `GameEngine.describe_automation_status`, without the display message:
`(ready, available_slots)`. -/
def describe_automation_status (content : ContentLoader) (p : PlayerProfile)
    (now : ℤ) : Bool × ℤ :=
  if !p.automation_enabled then (false, 0)
  else if !p.has_automation_access then (false, 0)
  else if !(has_active_dispatcher p now) then (false, 0)
  else
    let slots := get_available_dispatch_slots content p now
    if slots ≤ 0 then (false, 0)
    else (true, slots)

/-- The cost dict of `GameEngine.calculate_mission_operating_costs`. -/
structure OperatingCosts where
  fuel : ℤ
  maintenance : ℤ
  salaries : ℤ
  total : ℤ
deriving DecidableEq, Repr

/-- Maintenance accumulation loop of `calculate_mission_operating_costs` for
one required vehicle type: walk the catalog, consume `min(needed, owned)`
per matching entry, break once the requirement is filled. -/
def maintenanceLoop (p : PlayerProfile) (duration_factor : Frac) :
    List (String × Vehicle) → String → ℕ → ℤ
  | [], _, _ => 0
  | (vid, v) :: rest, vehicle_type, needed =>
    if !(v.vehicle_type == vehicle_type) then
      maintenanceLoop p duration_factor rest vehicle_type needed
    else
      let owned := p.get_vehicle_count vid
      if owned = 0 then maintenanceLoop p duration_factor rest vehicle_type needed
      else
        let used := min needed owned
        let c := pyInt ((v.maintenance_cost : Frac) * duration_factor * (used : Frac))
        if needed - used = 0 then c
        else c + maintenanceLoop p duration_factor rest vehicle_type (needed - used)

/-- Salary accumulation loop of `calculate_mission_operating_costs`. -/
def salaryLoop (p : PlayerProfile) (duration_factor : Frac) :
    List (String × Staff) → String → ℕ → ℤ
  | [], _, _ => 0
  | (sid, s) :: rest, staff_type, needed =>
    if !(s.staff_type == staff_type) then
      salaryLoop p duration_factor rest staff_type needed
    else
      let owned := p.get_staff_count sid
      if owned = 0 then salaryLoop p duration_factor rest staff_type needed
      else
        let used := min needed owned
        let c := pyInt ((s.salary_per_tick : Frac) * duration_factor * (used : Frac))
        if needed - used = 0 then c
        else c + salaryLoop p duration_factor rest staff_type (needed - used)

/-- Product of `(1 − effect_value)` over owned `cost_reduction` upgrades. -/
def costReductionMultiplier (content : ContentLoader) (p : PlayerProfile) : Frac :=
  p.owned_upgrades.foldl (fun acc uid =>
    match lookupA content.upgrades uid with
    | some u => if u.effect_type == "cost_reduction" then acc * (1 - u.effect_value) else acc
    | none => acc) 1

/-- `GameEngine.calculate_mission_operating_costs`. -/
def calculate_mission_operating_costs (content : ContentLoader)
    (p : PlayerProfile) (m : Mission) : OperatingCosts :=
  let fuel := max 1 (pyInt ((m.fuel_cost : Frac) * costReductionMultiplier content p))
  let duration_factor : Frac := (m.base_duration : Frac) / (TICK_INTERVAL_MINUTES : Frac)
  let maintenance := ((counterItems m.required_vehicle_types).map (fun tq =>
    maintenanceLoop p duration_factor content.vehicles tq.1 tq.2)).sum
  let salaries := ((counterItems m.required_staff_types).map (fun tq =>
    salaryLoop p duration_factor content.staff tq.1 tq.2)).sum
  { fuel := fuel, maintenance := maintenance, salaries := salaries,
    total := max 1 (fuel + maintenance + salaries) }

/-- `GameEngine.calculate_dispatch_cost`. -/
def calculate_dispatch_cost (content : ContentLoader) (p : PlayerProfile)
    (m : Mission) : ℤ :=
  (calculate_mission_operating_costs content p m).total

/-- Per required staff type: bonus of the first catalog staff of that type
that is currently available (inner loop of `calculate_success_chance`). -/
def staffBonusFor (content : ContentLoader) (p : PlayerProfile) (now : ℤ)
    (staff_type : String) : Frac :=
  match content.staff.find? (fun kv =>
      kv.2.staff_type == staff_type && p.is_staff_available kv.1 now) with
  | some kv => kv.2.success_bonus - 1
  | none => 0

/-- Sum of `success_boost` upgrade effect values. -/
def successBoostBonus (content : ContentLoader) (p : PlayerProfile) : Frac :=
  p.owned_upgrades.foldl (fun acc uid =>
    match lookupA content.upgrades uid with
    | some u => if u.effect_type == "success_boost" then acc + u.effect_value else acc
    | none => acc) 0

/-- `GameEngine.calculate_success_chance`. -/
def calculate_success_chance (content : ContentLoader) (p : PlayerProfile)
    (m : Mission) (now : ℤ) : ℤ :=
  let base_chance : Frac := match lookupA content.districts p.current_district with
    | some d => (m.base_success_chance : Frac) - (d.mission_difficulty_modifier : Frac)
    | none => (m.base_success_chance : Frac)
  let staff_bonus : Frac := (m.required_staff_types.map (staffBonusFor content p now)).sum
  let upgrade_bonus := successBoostBonus content p
  let final_chance := base_chance * (1 + staff_bonus + upgrade_bonus)
  let final_chance := final_chance + ((p.reputation : Frac) - 50) / 100 * 10
  let final_chance := final_chance - FAILURE_CHANCE_PENALTY
  max 5 (min 95 (pyInt final_chance))

/-- Product of `(1 + effect_value)` over owned `income_boost` upgrades. -/
def incomeBoostMultiplier (content : ContentLoader) (p : PlayerProfile) : Frac :=
  p.owned_upgrades.foldl (fun acc uid =>
    match lookupA content.upgrades uid with
    | some u => if u.effect_type == "income_boost" then acc * (1 + u.effect_value) else acc
    | none => acc) 1

/-- `GameEngine.calculate_mission_reward`, with `int(...)` truncation after
each multiplication step as in the source. -/
def calculate_mission_reward (content : ContentLoader) (p : PlayerProfile)
    (m : Mission) : ℤ :=
  let level_multiplier : Frac := 1 + ((p.station_level - 1 : ℕ) : Frac) * PROFIT_PER_LEVEL
  let base_reward := pyInt ((m.base_reward : Frac) * level_multiplier)
  let base_reward := match lookupA content.districts p.current_district with
    | some d => pyInt ((base_reward : Frac) * d.mission_reward_multiplier)
    | none => base_reward
  let base_reward := pyInt ((base_reward : Frac) * incomeBoostMultiplier content p)
  let dispatch_cost := calculate_dispatch_cost content p m
  let minimum_profitable_reward := pyInt ((dispatch_cost : Frac) * (1 + PROFIT_MARGIN))
  max 1 (max base_reward minimum_profitable_reward)

/-- Vehicle allocation walk of `GameEngine.dispatch_mission` for one required
type: per matching catalog entry with availability, allocate
`min(needed, available)` with that entry's cooldown, until the requirement is
filled (`break` once `needed ≤ 0`). -/
def dispatchAllocVehicles (now : ℤ) (p : PlayerProfile) :
    List (String × Vehicle) → String → ℕ → PlayerProfile
  | [], _, _ => p
  | (vid, v) :: rest, vehicle_type, needed =>
    if !(v.vehicle_type == vehicle_type) then
      dispatchAllocVehicles now p rest vehicle_type needed
    else if needed = 0 then p
    else
      let available := p.get_available_vehicle_count vid now
      if available = 0 then dispatchAllocVehicles now p rest vehicle_type needed
      else
        let assign := min needed available
        let cooldown_end := now + 60 * (v.cooldown_minutes : ℤ)
        let p' := p.allocate_vehicles [(vid, assign)] cooldown_end now
        dispatchAllocVehicles now p' rest vehicle_type (needed - assign)

/-- Staff allocation walk of `GameEngine.dispatch_mission`. -/
def dispatchAllocStaff (now : ℤ) (p : PlayerProfile) :
    List (String × Staff) → String → ℕ → PlayerProfile
  | [], _, _ => p
  | (sid, s) :: rest, staff_type, needed =>
    if !(s.staff_type == staff_type) then
      dispatchAllocStaff now p rest staff_type needed
    else if needed = 0 then p
    else
      let available := p.get_available_staff_count sid now
      if available = 0 then dispatchAllocStaff now p rest staff_type needed
      else
        let assign := min needed available
        let cooldown_end := now + 60 * (s.cooldown_minutes : ℤ)
        let p' := p.allocate_staff [(sid, assign)] cooldown_end now
        dispatchAllocStaff now p' rest staff_type (needed - assign)

/-- `GameEngine.dispatch_mission`: freezes cost, success chance and reward,
allocates cooldowns, appends the `ActiveMission`, debits lifetime expenses,
and returns `(active_mission, -cost, profile_after)`.  It checks no
preconditions. -/
def dispatch_mission (content : ContentLoader) (p : PlayerProfile)
    (m : Mission) (now : ℤ) : ActiveMission × ℤ × PlayerProfile :=
  let operating_costs := calculate_mission_operating_costs content p m
  let success_chance := calculate_success_chance content p m now
  let reward := calculate_mission_reward content p m
  let p1 := (counterItems m.required_vehicle_types).foldl (fun q tq =>
    dispatchAllocVehicles now q content.vehicles tq.1 tq.2) p
  let p2 := (counterItems m.required_staff_types).foldl (fun q tq =>
    dispatchAllocStaff now q content.staff tq.1 tq.2) p1
  let active_mission : ActiveMission :=
    { mission_id := m.id, name := m.name,
      ends_at := now + 60 * (m.base_duration : ℤ), dispatched_at := now,
      operating_cost := operating_costs.total, potential_reward := reward,
      success_chance := success_chance, heat_change := m.heat_change,
      reputation_success := m.reputation_change_success,
      reputation_failure := m.reputation_change_failure }
  let p3 := p2.add_active_mission active_mission
  let p4 := { p3 with total_expenses_paid := p3.total_expenses_paid + operating_costs.total }
  (active_mission, -operating_costs.total, p4)

/-- Result dict of `GameEngine.resolve_completed_missions` (display messages
omitted). -/
structure ResolveResult where
  income : ℤ
  expenses : ℤ
  completed : ℤ
  failed : ℤ
deriving DecidableEq, Repr

/-- Accumulator of the sweep in `resolve_completed_missions`:
the profile under mutation, the still-running partition, the tallies, and
the index of the next random roll. -/
structure ResolveState where
  profile : PlayerProfile
  remaining : List ActiveMission
  income : ℤ
  completed : ℤ
  failed : ℤ
  idx : ℕ

/-- One iteration of the `resolve_completed_missions` sweep.  A mission with
`ends_at > now` is kept; otherwise one roll in `[1, 100]` is drawn and the
mission succeeds iff `roll ≤ success_chance`.  Success clamps reputation
only from above; failure clamps it only from below and always adds
`abs(heat_change)` to heat. -/
def resolveStep (now : ℤ) (rolls : ℕ → ℤ) (st : ResolveState)
    (ms : ActiveMission) : ResolveState :=
  if now < ms.ends_at then { st with remaining := st.remaining ++ [ms] }
  else
    let roll := rolls st.idx
    if roll ≤ ms.success_chance then
      let p := st.profile
      let p := { p with
        total_missions_completed := p.total_missions_completed + 1,
        total_income_earned := p.total_income_earned + ms.potential_reward,
        reputation := min 100 (p.reputation + ms.reputation_success),
        heat_level := max 0 (min 100 (p.heat_level + ms.heat_change)) }
      { st with profile := p, income := st.income + ms.potential_reward,
                completed := st.completed + 1, idx := st.idx + 1 }
    else
      let p := st.profile
      let p := { p with
        total_missions_failed := p.total_missions_failed + 1,
        reputation := max 0 (p.reputation + ms.reputation_failure),
        heat_level := max 0 (min 100 (p.heat_level + |ms.heat_change|)) }
      { st with profile := p, failed := st.failed + 1, idx := st.idx + 1 }

/-- `GameEngine.resolve_completed_missions`: sweep `active_missions`, settle
the finished ones, and replace `active_missions` with the still-running
partition.  Returns the updated profile and the result tallies. -/
def resolve_completed_missions (p : PlayerProfile) (now : ℤ)
    (rolls : ℕ → ℤ) : PlayerProfile × ResolveResult :=
  let st := p.active_missions.foldl (resolveStep now rolls)
    { profile := p, remaining := [], income := 0, completed := 0, failed := 0, idx := 0 }
  ({ st.profile with active_missions := st.remaining },
   { income := st.income, expenses := 0, completed := st.completed, failed := st.failed })

/-- The tick-cost dict returned by `GameEngine.calculate_tick_costs`
(consumed with keys `salaries`, `maintenance`, `total`). -/
structure TickCosts where
  salaries : ℤ
  maintenance : ℤ
  total : ℤ
deriving DecidableEq, Repr

/-- Modelled from the spec: `GameEngine.calculate_tick_costs` is called by
`TickEngine.process_catchup` and the status view but its definition is not
in the available source.  Per the spec (§4.7, §8), each tick accrues
recurring costs equal to the sum of staff salaries plus vehicle maintenance,
both flat per tick and not duration-prorated; the status view reads the
result as a dict with `salaries`, `maintenance` and `total` keys. -/
def calculate_tick_costs (content : ContentLoader) (p : PlayerProfile) : TickCosts :=
  let salaries := (content.staff.map (fun kv =>
    kv.2.salary_per_tick * (p.get_staff_count kv.1 : ℤ))).sum
  let maintenance := (content.vehicles.map (fun kv =>
    kv.2.maintenance_cost * (p.get_vehicle_count kv.1 : ℤ))).sum
  { salaries := salaries, maintenance := maintenance, total := salaries + maintenance }

/-- `ContentLoader.get_missions_for_district`. -/
def get_missions_for_district (content : ContentLoader) (district_id : String)
    (min_level : ℕ) : List Mission :=
  (content.missions.map Prod.snd).filter (fun m =>
    m.district == district_id && decide (m.min_station_level ≤ min_level))

/-- `TickEngine._mission_matches_filters`. -/
def mission_matches_filters (m : Mission) (f : MissionFilters) : Bool :=
  if f.min_reward.any (fun r => decide (m.base_reward < r)) then false
  else if f.max_reward.any (fun r => decide (r < m.base_reward)) then false
  else if f.districts.any (fun ds => !(ds.contains m.district)) then false
  else true

/-- `TickEngine._matches_policy`: no active policy means every mission
matches; otherwise any active policy whose filters accept the mission. -/
def matches_policy (content : ContentLoader) (m : Mission)
    (active_policies : List String) : Bool :=
  if active_policies.isEmpty then true
  else active_policies.any (fun pid =>
    match lookupA content.policies pid with
    | some pol => mission_matches_filters m pol.mission_filters
    | none => false)

/-- Result dict of `TickEngine._auto_dispatch_missions`. -/
structure AutoResults where
  income : ℤ
  expenses : ℤ
  completed : ℤ
  failed : ℤ
deriving DecidableEq, Repr

/-- The mission loop of `TickEngine._auto_dispatch_missions`.  Note the
source unpacks the triple returned by `dispatch_mission` as
`success, amount, message`; the first component is the `ActiveMission`
object, which is always truthy, so the success branch is always taken:
`income += amount` adds the negative dispatch cost and `completed` counts
the dispatch.  No resolution roll happens here. -/
def autoDispatchLoop (content : ContentLoader) (now : ℤ) (balance : Option ℤ)
    (available_slots : ℤ) (p : PlayerProfile) (results : AutoResults)
    (dispatched : ℕ) : List Mission → PlayerProfile × AutoResults
  | [] => (p, results)
  | m :: rest =>
    if available_slots ≤ (dispatched : ℤ) then (p, results)
    else if !(can_dispatch_mission content p m now).1 then
      autoDispatchLoop content now balance available_slots p results dispatched rest
    else if !(matches_policy content m p.active_policies) then
      autoDispatchLoop content now balance available_slots p results dispatched rest
    else
      let cost := calculate_dispatch_cost content p m
      match balance with
      | none => autoDispatchLoop content now balance available_slots p results dispatched rest
      | some b =>
        if b < max cost MINIMUM_BALANCE then
          autoDispatchLoop content now balance available_slots p results dispatched rest
        else
          let r := dispatch_mission content p m now
          let results' := { results with income := results.income + r.2.1,
                                         completed := results.completed + 1 }
          autoDispatchLoop content now balance available_slots r.2.2 results' (dispatched + 1) rest

/-- `TickEngine._auto_dispatch_missions`.  The external balance is read once
per candidate mission but no ledger mutation happens during the tick, so it
is a constant `Option ℤ` parameter (`none` models an unavailable ledger,
skipping the mission). -/
def auto_dispatch_missions (content : ContentLoader) (p : PlayerProfile)
    (now : ℤ) (balance : Option ℤ) : PlayerProfile × AutoResults :=
  let missions := get_missions_for_district content p.current_district p.station_level
  let status := describe_automation_status content p now
  if !status.1 then (p, { income := 0, expenses := 0, completed := 0, failed := 0 })
  else if status.2 ≤ 0 then (p, { income := 0, expenses := 0, completed := 0, failed := 0 })
  else autoDispatchLoop content now balance status.2 p
    { income := 0, expenses := 0, completed := 0, failed := 0 } 0 missions

/-- Accumulator of the per-tick loop in `TickEngine.process_catchup`. -/
structure CatchupAcc where
  profile : PlayerProfile
  total_income : ℤ
  total_expenses : ℤ
  missions_completed : ℤ
  missions_failed : ℤ

/-- One owed tick of `TickEngine.process_catchup`: accrue recurring costs,
then auto-dispatch when automation is enabled and accessible. -/
def catchupTick (content : ContentLoader) (now : ℤ) (balance : Option ℤ)
    (acc : CatchupAcc) : CatchupAcc :=
  let costs := calculate_tick_costs content acc.profile
  let acc := { acc with total_expenses := acc.total_expenses + costs.total }
  if acc.profile.automation_enabled && acc.profile.has_automation_access then
    let r := auto_dispatch_missions content acc.profile now balance
    { profile := r.1,
      total_income := acc.total_income + r.2.income,
      total_expenses := acc.total_expenses + r.2.expenses,
      missions_completed := acc.missions_completed + r.2.completed,
      missions_failed := acc.missions_failed + r.2.failed }
  else acc

/-- `int(time_since.total_seconds() / (TICK_INTERVAL_MINUTES * 60))` after
capping `time_since` at the catch-up window: the number of owed ticks. -/
def ticks_owed (last now : ℤ) : ℤ :=
  Int.tdiv (min (now - last) ((MAX_CATCHUP_HOURS : ℤ) * 3600))
    ((TICK_INTERVAL_MINUTES : ℤ) * 60)

/-- Outcome of `TickEngine.process_catchup`: the saved profile, the single
ledger transaction attempted at the end (`none` when no transaction was
attempted, because the net change was zero, no ticks were owed, or the bank
user could not be resolved), the tick count, and the accumulated tallies. -/
structure CatchupResult where
  profile : PlayerProfile
  ledger_tx : Option ℤ
  ticks : ℤ
  total_income : ℤ
  total_expenses : ℤ
  missions_completed : ℤ
  missions_failed : ℤ

/-- `TickEngine.process_catchup`.  `user_found` models
`bot.get_user(...)` succeeding; `bank_ok` models the bank transaction
succeeding (profile lifetime stats are only updated in that case). -/
def process_catchup (content : ContentLoader) (p : PlayerProfile) (now : ℤ)
    (balance : Option ℤ) (user_found bank_ok : Bool) : CatchupResult :=
  match p.last_tick_ts with
  | none =>
    { profile := { p with last_tick_ts := some now }, ledger_tx := none,
      ticks := 0, total_income := 0, total_expenses := 0,
      missions_completed := 0, missions_failed := 0 }
  | some last =>
    let ticks := ticks_owed last now
    if ticks = 0 then
      { profile := p, ledger_tx := none, ticks := 0, total_income := 0,
        total_expenses := 0, missions_completed := 0, missions_failed := 0 }
    else
      let acc := (List.range ticks.toNat).foldl
        (fun a _ => catchupTick content now balance a)
        { profile := p, total_income := 0, total_expenses := 0,
          missions_completed := 0, missions_failed := 0 }
      let net_change := acc.total_income - acc.total_expenses
      let tx : Option ℤ := if net_change ≠ 0 ∧ user_found then some net_change else none
      let prof :=
        if net_change ≠ 0 ∧ user_found ∧ bank_ok then
          { acc.profile with
            total_income_earned := acc.profile.total_income_earned + max 0 acc.total_income,
            total_expenses_paid := acc.profile.total_expenses_paid + max 0 acc.total_expenses }
        else acc.profile
      { profile := { prof with last_tick_ts := some now }, ledger_tx := tx,
        ticks := ticks, total_income := acc.total_income,
        total_expenses := acc.total_expenses,
        missions_completed := acc.missions_completed,
        missions_failed := acc.missions_failed }

/-- A profile with the dataclass defaults of `PlayerProfile`
(level 1, downtown unlocked, reputation 50, heat 0, nothing owned). -/
def defaultProfile (uid : ℤ) : PlayerProfile :=
  { user_id := uid, station_level := 1, current_district := "downtown",
    unlocked_districts := ["downtown"],
    owned_vehicles := fun _ => 0, staff_roster := fun _ => 0,
    owned_upgrades := [], active_policies := [],
    equipment_inventory := fun _ => 0,
    vehicleAssignments := [], staffAssignments := [],
    active_missions := [], heat_level := 0, reputation := 50,
    last_tick_ts := none, automation_enabled := false,
    vehicle_cooldowns := fun _ => [], staff_cooldowns := fun _ => [],
    total_missions_completed := 0, total_missions_failed := 0,
    total_income_earned := 0, total_expenses_paid := 0 }

/-- Concrete dispatcher staff type used by the concrete-run theorems. -/
def fixDispatcher : Staff :=
  { name := "Dispatcher", staff_type := "dispatcher", hire_cost := 100,
    salary_per_tick := 5, success_bonus := 1, cooldown_minutes := 10,
    min_station_level := 1, requires_vehicle := false, equipment_slots := 1 }

/-- Concrete vehicle type used by the concrete-run theorems. -/
def fixCar : Vehicle :=
  { name := "Patrol Car", vehicle_type := "patrol", purchase_cost := 1000,
    maintenance_cost := 2, fuel_efficiency := 1, cooldown_minutes := 15,
    min_station_level := 1, equipment_slots := 2 }

/-- Concrete mission with no resource requirements used by the concrete-run
theorems. -/
def fixMission : Mission :=
  { id := "m1", name := "Simple Patrol", district := "downtown",
    required_vehicle_types := [], required_staff_types := [],
    base_reward := 500, base_duration := 30, base_success_chance := 80,
    fuel_cost := 50, heat_change := 2, reputation_change_success := 3,
    reputation_change_failure := -2, min_station_level := 1 }

/-- Concrete automation-unlocking upgrade. -/
def fixDispatchCenter : Upgrade :=
  { name := "Dispatch Center", cost := 500, effect_type := "automation",
    effect_value := 1, min_station_level := 1, required_upgrade := none }

/-- Concrete catalog used by the concrete-run theorems. -/
def fixContent : ContentLoader :=
  { missions := [("m1", fixMission)], vehicles := [("car", fixCar)],
    districts := [], staff := [("dispatcher", fixDispatcher)],
    upgrades := [("dispatch_center", fixDispatchCenter)], policies := [] }

/-- Availability never exceeds ownership, for any profile state. -/
lemma get_available_vehicle_count_le (p : PlayerProfile) (id : String) (now : ℤ) :
    p.get_available_vehicle_count id now ≤ p.owned_vehicles id := by
  unfold PlayerProfile.get_available_vehicle_count PlayerProfile.get_vehicle_count
  dsimp only
  split
  · omega
  · exact Nat.sub_le _ _

/-- Staff availability never exceeds roster size. -/
lemma get_available_staff_count_le (p : PlayerProfile) (id : String) (now : ℤ) :
    p.get_available_staff_count id now ≤ p.staff_roster id := by
  unfold PlayerProfile.get_available_staff_count PlayerProfile.get_staff_count
  dsimp only
  split
  · omega
  · exact Nat.sub_le _ _

/-- An arbitrary interleaving of the availability-model operations: allocate
on either resource kind, or a lazy prune (`_prune_cooldowns`). -/
inductive AvailOp where
  | allocV : List (String × ℕ) → ℤ → AvailOp
  | allocS : List (String × ℕ) → ℤ → AvailOp
  | pruneV : AvailOp
  | pruneS : AvailOp

/-- Apply one availability-model operation at time `now`. -/
def applyAvailOp (now : ℤ) (p : PlayerProfile) : AvailOp → PlayerProfile
  | .allocV counts t => p.allocate_vehicles counts t now
  | .allocS counts t => p.allocate_staff counts t now
  | .pruneV => p.prune_vehicle_cooldowns now
  | .pruneS => p.prune_staff_cooldowns now

/-- C7: after any sequence of allocate/prune operations, every availability
query satisfies `0 ≤ available_count ≤ owned_count` (availability is a ℕ, so
the lower bound is stated over ℤ as in the spec). -/
theorem availability_invariant_after_ops (p : PlayerProfile) (ops : List AvailOp)
    (now : ℤ) (id : String) :
    (0 : ℤ) ≤ ((ops.foldl (applyAvailOp now) p).get_available_vehicle_count id now : ℤ) ∧
    (ops.foldl (applyAvailOp now) p).get_available_vehicle_count id now ≤
      (ops.foldl (applyAvailOp now) p).owned_vehicles id ∧
    (0 : ℤ) ≤ ((ops.foldl (applyAvailOp now) p).get_available_staff_count id now : ℤ) ∧
    (ops.foldl (applyAvailOp now) p).get_available_staff_count id now ≤
      (ops.foldl (applyAvailOp now) p).staff_roster id :=
  ⟨Int.ofNat_nonneg _, get_available_vehicle_count_le _ _ _,
   Int.ofNat_nonneg _, get_available_staff_count_le _ _ _⟩

/-- C9: the computed success chance is always clamped into `[5, 95]`. -/
theorem success_chance_bounds (content : ContentLoader) (p : PlayerProfile)
    (m : Mission) (now : ℤ) :
    5 ≤ calculate_success_chance content p m now ∧
      calculate_success_chance content p m now ≤ 95 := by
  unfold calculate_success_chance
  exact ⟨le_max_left _ _, max_le (by norm_num) (min_le_left _ _)⟩

/-- Mission fixture whose reward floor is decided by the truncated
profitability minimum: dispatch cost 5, raw reward 1. -/
def fixCheapMission : Mission :=
  { id := "m2", name := "Cheap Call", district := "downtown",
    required_vehicle_types := [], required_staff_types := [],
    base_reward := 1, base_duration := 5, base_success_chance := 50,
    fuel_cost := 5, heat_change := 0, reputation_change_success := 1,
    reputation_change_failure := -1, min_station_level := 1 }

/-- C2, counterexample: at dispatch cost 5 the reward is floored up only to
`int(5 × 1.1) = 5`, which is strictly below `5 × (1 + profit_margin) = 5.5`,
so the claimed inequality `reward ≥ cost × (1 + profit_margin)` fails. -/
theorem reward_profit_margin_counterexample :
    ¬ ((calculate_mission_reward fixContent (defaultProfile 1) fixCheapMission : ℚ) ≥
       (calculate_dispatch_cost fixContent (defaultProfile 1) fixCheapMission : ℚ) *
         (1 + PROFIT_MARGIN.toRat)) := by
  have h1 : calculate_mission_reward fixContent (defaultProfile 1) fixCheapMission = 5 := by
    decide
  have h2 : calculate_dispatch_cost fixContent (defaultProfile 1) fixCheapMission = 5 := by
    decide
  have h3 : PROFIT_MARGIN = ⟨1, 10⟩ := by decide
  rw [h1, h2, h3]
  norm_num [Frac.toRat]

/-- C2, amended: the reward is at least the *truncated* profitability floor
`int(dispatch_cost × (1 + PROFIT_MARGIN))`, and at least 1. -/
theorem reward_ge_truncated_profit_floor (content : ContentLoader)
    (p : PlayerProfile) (m : Mission) :
    pyInt ((calculate_dispatch_cost content p m : Frac) * (1 + PROFIT_MARGIN)) ≤
      calculate_mission_reward content p m ∧
    1 ≤ calculate_mission_reward content p m := by
  unfold calculate_mission_reward
  exact ⟨(le_max_right _ _).trans (le_max_right _ _), le_max_left _ _⟩

/-- Profile fixture for the catch-up timestamp counterexample: in the ticking
state since time 0. -/
def fixTickedProfile : PlayerProfile := { defaultProfile 2 with last_tick_ts := some 0 }

/-- C4, counterexample: 100 seconds after the last tick (less than one
5-minute tick interval) zero ticks are owed and `process_catchup` returns
early, leaving `last_tick_ts` at its old value instead of advancing it to
`now = 100`. -/
theorem catchup_timestamp_counterexample :
    (process_catchup fixContent fixTickedProfile 100 none true true).profile.last_tick_ts
        = some 0 ∧
    (process_catchup fixContent fixTickedProfile 100 none true true).profile.last_tick_ts
        ≠ some 100 := by
  decide

/-- C4, amended: for a profile already in the ticking state, `last_tick_ts`
advances to `now` exactly when at least one tick is owed; with zero ticks
owed the whole profile is returned unchanged. -/
theorem catchup_timestamp_update (content : ContentLoader) (p : PlayerProfile)
    (now : ℤ) (balance : Option ℤ) (user_found bank_ok : Bool) (t : ℤ)
    (h : p.last_tick_ts = some t) :
    (ticks_owed t now = 0 →
      (process_catchup content p now balance user_found bank_ok).profile = p) ∧
    (ticks_owed t now ≠ 0 →
      (process_catchup content p now balance user_found bank_ok).profile.last_tick_ts
        = some now) := by
  unfold process_catchup
  rw [h]
  by_cases hz : ticks_owed t now = 0 <;> simp [hz]

/-- Witness for `catchup_timestamp_update` at the concrete ticking profile
and `now = 100`. -/
theorem catchup_timestamp_update_witness :
    fixTickedProfile.last_tick_ts = some 0 ∧
    ((ticks_owed 0 100 = 0 →
      (process_catchup fixContent fixTickedProfile 100 none true true).profile
        = fixTickedProfile) ∧
    (ticks_owed 0 100 ≠ 0 →
      (process_catchup fixContent fixTickedProfile 100 none true true).profile.last_tick_ts
        = some 100)) :=
  ⟨rfl, catchup_timestamp_update fixContent fixTickedProfile 100 none true true 0 rfl⟩

/-- Filtering an assignment bucket can only reduce the assigned total. -/
lemma assignedInBucket_filter_le (l : List (String × List (String × ℕ)))
    (f : String × List (String × ℕ) → Bool) (eid : String) :
    assignedInBucket (l.filter f) eid ≤ assignedInBucket l eid := by
  unfold assignedInBucket
  exact List.Sublist.sum_le_sum ((l.filter_sublist).map _) (fun a _ => Nat.zero_le a)

/-- Profile fixture for the partial-removal counterexample: two patrol cars,
both on an unexpired cooldown. -/
def fixTwoBusyCars : PlayerProfile := { defaultProfile 3 with
  owned_vehicles := fupd (fun _ => 0) "car" 2,
  vehicle_cooldowns := fupd (fun _ => []) "car" [1000, 1000] }

/-- C5, counterexample: the profile satisfies the cooldown-multiset
invariant (2 entries ≤ 2 owned), but `remove_vehicle("car", 1)` — a partial
removal — decrements the owned count without dropping any cooldown entry,
leaving 2 entries against 1 owned unit. -/
theorem remove_partial_invariant_counterexample :
    (fixTwoBusyCars.vehicle_cooldowns "car").length ≤ fixTwoBusyCars.owned_vehicles "car" ∧
    ¬ (((fixTwoBusyCars.remove_vehicle "car" 1).vehicle_cooldowns "car").length ≤
        (fixTwoBusyCars.remove_vehicle "car" 1).owned_vehicles "car") := by
  decide

/-- C5, amended: `remove_vehicle`/`remove_staff` preserve the
cooldown-multiset invariant for full removals (quantity ≥ owned count drops
the id's cooldown entries entirely); equipment inventory is never reduced
and the unassigned pool can only grow, for any removal quantity. -/
theorem remove_full_preserves_invariant (p : PlayerProfile) (vid sid id eid : String)
    (q q' : ℕ) (hqv : p.owned_vehicles vid ≤ q) (hqs : p.staff_roster sid ≤ q')
    (hv : (p.vehicle_cooldowns id).length ≤ p.owned_vehicles id)
    (hs : (p.staff_cooldowns id).length ≤ p.staff_roster id) :
    ((p.remove_vehicle vid q).vehicle_cooldowns id).length ≤
      (p.remove_vehicle vid q).owned_vehicles id ∧
    ((p.remove_staff sid q').staff_cooldowns id).length ≤
      (p.remove_staff sid q').staff_roster id ∧
    (p.remove_vehicle vid q).equipment_inventory = p.equipment_inventory ∧
    (p.remove_staff sid q').equipment_inventory = p.equipment_inventory ∧
    p.get_unassigned_equipment eid ≤ (p.remove_vehicle vid q).get_unassigned_equipment eid ∧
    p.get_unassigned_equipment eid ≤ (p.remove_staff sid q').get_unassigned_equipment eid := by
  have hrv : p.remove_vehicle vid q =
      { p with owned_vehicles := fupd p.owned_vehicles vid 0,
               vehicle_cooldowns := fupd p.vehicle_cooldowns vid [],
               vehicleAssignments := p.vehicleAssignments.filter (fun kv => !(kv.1 == vid)) } := by
    unfold PlayerProfile.remove_vehicle
    rw [if_pos hqv]
  have hrs : p.remove_staff sid q' =
      { p with staff_roster := fupd p.staff_roster sid 0,
               staff_cooldowns := fupd p.staff_cooldowns sid [],
               staffAssignments := p.staffAssignments.filter (fun kv => !(kv.1 == sid)) } := by
    unfold PlayerProfile.remove_staff
    rw [if_pos hqs]
  refine ⟨?_, ?_, ?_, ?_, ?_, ?_⟩
  · rw [hrv]
    by_cases hid : id = vid <;> simp [fupd, hid, hv]
  · rw [hrs]
    by_cases hid : id = sid <;> simp [fupd, hid, hs]
  · rw [hrv]
  · rw [hrs]
  · rw [hrv]
    unfold PlayerProfile.get_unassigned_equipment PlayerProfile.get_total_assigned_equipment
    have := assignedInBucket_filter_le p.vehicleAssignments (fun kv => !(kv.1 == vid)) eid
    simp only
    omega
  · rw [hrs]
    unfold PlayerProfile.get_unassigned_equipment PlayerProfile.get_total_assigned_equipment
    have := assignedInBucket_filter_le p.staffAssignments (fun kv => !(kv.1 == sid)) eid
    simp only
    omega

/-- Witness for `remove_full_preserves_invariant`: fully removing both busy
cars (and firing from an empty roster) keeps the invariant. -/
theorem remove_full_preserves_invariant_witness :
    (fixTwoBusyCars.owned_vehicles "car" ≤ 2 ∧ fixTwoBusyCars.staff_roster "dispatcher" ≤ 0 ∧
     (fixTwoBusyCars.vehicle_cooldowns "car").length ≤ fixTwoBusyCars.owned_vehicles "car" ∧
     (fixTwoBusyCars.staff_cooldowns "car").length ≤ fixTwoBusyCars.staff_roster "car") ∧
    (((fixTwoBusyCars.remove_vehicle "car" 2).vehicle_cooldowns "car").length ≤
      (fixTwoBusyCars.remove_vehicle "car" 2).owned_vehicles "car" ∧
     ((fixTwoBusyCars.remove_staff "dispatcher" 0).staff_cooldowns "car").length ≤
      (fixTwoBusyCars.remove_staff "dispatcher" 0).staff_roster "car" ∧
     (fixTwoBusyCars.remove_vehicle "car" 2).equipment_inventory =
       fixTwoBusyCars.equipment_inventory ∧
     (fixTwoBusyCars.remove_staff "dispatcher" 0).equipment_inventory =
       fixTwoBusyCars.equipment_inventory ∧
     fixTwoBusyCars.get_unassigned_equipment "vest" ≤
       (fixTwoBusyCars.remove_vehicle "car" 2).get_unassigned_equipment "vest" ∧
     fixTwoBusyCars.get_unassigned_equipment "vest" ≤
       (fixTwoBusyCars.remove_staff "dispatcher" 0).get_unassigned_equipment "vest") :=
  ⟨⟨by decide, by decide, by decide, by decide⟩,
   remove_full_preserves_invariant fixTwoBusyCars "car" "dispatcher" "car" "vest" 2 0
     (by decide) (by decide) (by decide) (by decide)⟩

/-- A finished active mission whose frozen success-reputation delta is
negative (the claim quantifies over arbitrary signs and magnitudes). -/
def fixNegRepMission : ActiveMission :=
  { mission_id := "m1", name := "Odd Call", ends_at := 50, dispatched_at := 0,
    operating_cost := 10, potential_reward := 100, success_chance := 100,
    heat_change := 0, reputation_success := -60, reputation_failure := 0 }

/-- Profile fixture holding the finished mission, with both meters mid-range. -/
def fixMidMeters : PlayerProfile := { defaultProfile 4 with
  active_missions := [fixNegRepMission], reputation := 50, heat_level := 50 }

/-- C6, counterexample: on the success path reputation is clamped only from
above (`min(100, …)`), so a frozen success-delta of −60 drives reputation
from 50 to −10, leaving the `[0, 100]` range. -/
theorem resolve_reputation_counterexample :
    (0 ≤ fixMidMeters.reputation ∧ fixMidMeters.reputation ≤ 100 ∧
     0 ≤ fixMidMeters.heat_level ∧ fixMidMeters.heat_level ≤ 100) ∧
    (resolve_completed_missions fixMidMeters 100 (fun _ => 1)).1.reputation = -10 ∧
    ¬ (0 ≤ (resolve_completed_missions fixMidMeters 100 (fun _ => 1)).1.reputation) := by
  decide

/-- Profile fixture that auto-dispatch succeeds on: one dispatcher on duty,
automation enabled, dispatch-center upgrade owned, ticking since time 0. -/
def fixAutoProfile : PlayerProfile := { defaultProfile 1 with
  staff_roster := fupd (fun _ => 0) "dispatcher" 1,
  automation_enabled := true,
  owned_upgrades := ["dispatch_center"],
  last_tick_ts := some 0 }

/-- C3: concrete catch-up run (one owed tick, balance 1000) exhibiting the
auto-dispatch accounting bug.  The auto-dispatched mission is *not* resolved
within the tick: it stays in `active_missions` with its real end time 2100,
no success roll happens and no reward is credited
(`total_missions_completed` and `total_income_earned` stay 0).  Instead the
tick counts the mere dispatch as a completion (`missions_completed = 1`)
and adds the *negative* dispatch cost −50 to the tick income, because
`_auto_dispatch_missions` unpacks `dispatch_mission`'s
`(active_mission, -cost, message)` as `(success, amount, message)`. -/
theorem catchup_auto_dispatch_not_resolved :
    (process_catchup fixContent fixAutoProfile 300 (some 1000) true true).missions_completed
        = 1 ∧
    (process_catchup fixContent fixAutoProfile 300 (some 1000) true true).total_income
        = -50 ∧
    (process_catchup fixContent fixAutoProfile 300 (some 1000) true true).profile.active_missions.map
        (fun am => am.ends_at) = [2100] ∧
    (process_catchup fixContent fixAutoProfile 300 (some 1000) true true).profile.total_missions_completed
        = 0 ∧
    (process_catchup fixContent fixAutoProfile 300 (some 1000) true true).profile.total_income_earned
        = 0 ∧
    (process_catchup fixContent fixAutoProfile 300 (some 1000) true true).ledger_tx
        = some (-55) := by
  decide

/-- One resolution step keeps both meters in `[0, 100]` when the settled
mission's frozen deltas have the conventional signs. -/
lemma resolveStep_meters_in_range (now : ℤ) (rolls : ℕ → ℤ) (st : ResolveState)
    (ms : ActiveMission) (hms : 0 ≤ ms.reputation_success ∧ ms.reputation_failure ≤ 0)
    (hst : 0 ≤ st.profile.reputation ∧ st.profile.reputation ≤ 100 ∧
           0 ≤ st.profile.heat_level ∧ st.profile.heat_level ≤ 100) :
    0 ≤ (resolveStep now rolls st ms).profile.reputation ∧
    (resolveStep now rolls st ms).profile.reputation ≤ 100 ∧
    0 ≤ (resolveStep now rolls st ms).profile.heat_level ∧
    (resolveStep now rolls st ms).profile.heat_level ≤ 100 := by
  obtain ⟨h1, h2, h3, h4⟩ := hst
  unfold resolveStep
  split
  · exact ⟨h1, h2, h3, h4⟩
  · dsimp only
    split
    · refine ⟨le_min (by norm_num) (by omega), min_le_left _ _, le_max_left _ _, ?_⟩
      exact max_le (by norm_num) ((min_le_left _ _))
    · refine ⟨le_max_left _ _, max_le (by norm_num) (by omega), le_max_left _ _, ?_⟩
      exact max_le (by norm_num) ((min_le_left _ _))

/-- The whole resolution sweep keeps both meters in `[0, 100]` under the
conventional delta signs. -/
lemma resolve_fold_meters_in_range (now : ℤ) (rolls : ℕ → ℤ) :
    ∀ (l : List ActiveMission) (st : ResolveState),
      (∀ am ∈ l, 0 ≤ am.reputation_success ∧ am.reputation_failure ≤ 0) →
      (0 ≤ st.profile.reputation ∧ st.profile.reputation ≤ 100 ∧
       0 ≤ st.profile.heat_level ∧ st.profile.heat_level ≤ 100) →
      0 ≤ (l.foldl (resolveStep now rolls) st).profile.reputation ∧
      (l.foldl (resolveStep now rolls) st).profile.reputation ≤ 100 ∧
      0 ≤ (l.foldl (resolveStep now rolls) st).profile.heat_level ∧
      (l.foldl (resolveStep now rolls) st).profile.heat_level ≤ 100
  | [], st, _, hst => hst
  | am :: rest, st, hl, hst => by
    have ham := hl am (List.mem_cons_self _ _)
    have hrest : ∀ a ∈ rest, 0 ≤ a.reputation_success ∧ a.reputation_failure ≤ 0 :=
      fun a ha => hl a (List.mem_cons_of_mem _ ha)
    simpa using resolve_fold_meters_in_range now rolls rest (resolveStep now rolls st am)
      hrest (resolveStep_meters_in_range now rolls st am ham hst)

/-- One resolution step keeps heat in `[0, 100]` for arbitrary frozen
deltas: both outcome paths clamp it on both sides. -/
lemma resolveStep_heat_in_range (now : ℤ) (rolls : ℕ → ℤ) (st : ResolveState)
    (ms : ActiveMission)
    (hst : 0 ≤ st.profile.heat_level ∧ st.profile.heat_level ≤ 100) :
    0 ≤ (resolveStep now rolls st ms).profile.heat_level ∧
    (resolveStep now rolls st ms).profile.heat_level ≤ 100 := by
  unfold resolveStep
  split
  · exact hst
  · dsimp only
    split
    · exact ⟨le_max_left _ _, max_le (by norm_num) ((min_le_left _ _))⟩
    · exact ⟨le_max_left _ _, max_le (by norm_num) ((min_le_left _ _))⟩

/-- The whole resolution sweep keeps heat in `[0, 100]` for arbitrary
frozen deltas. -/
lemma resolve_fold_heat_in_range (now : ℤ) (rolls : ℕ → ℤ) :
    ∀ (l : List ActiveMission) (st : ResolveState),
      (0 ≤ st.profile.heat_level ∧ st.profile.heat_level ≤ 100) →
      0 ≤ (l.foldl (resolveStep now rolls) st).profile.heat_level ∧
      (l.foldl (resolveStep now rolls) st).profile.heat_level ≤ 100
  | [], _, hst => hst
  | am :: rest, st, hst => by
    simpa using resolve_fold_heat_in_range now rolls rest (resolveStep now rolls st am)
      (resolveStep_heat_in_range now rolls st am hst)

/-- C6, amended: starting from in-range meters, `resolve_completed_missions`
keeps reputation and heat in `[0, 100]` on both outcome paths provided
every settled mission has a nonnegative frozen success-delta and a
nonpositive frozen failure-delta.  The heat bounds come from the code's
two-sided clamp and need no delta hypothesis; the reputation bounds need
the sign convention, per the counterexample. -/
theorem resolve_meters_stay_in_range (p : PlayerProfile) (now : ℤ) (rolls : ℕ → ℤ)
    (h1 : 0 ≤ p.reputation) (h2 : p.reputation ≤ 100)
    (h3 : 0 ≤ p.heat_level) (h4 : p.heat_level ≤ 100) :
    (0 ≤ (resolve_completed_missions p now rolls).1.heat_level ∧
     (resolve_completed_missions p now rolls).1.heat_level ≤ 100) ∧
    ((∀ am ∈ p.active_missions,
        0 ≤ am.reputation_success ∧ am.reputation_failure ≤ 0) →
      0 ≤ (resolve_completed_missions p now rolls).1.reputation ∧
      (resolve_completed_missions p now rolls).1.reputation ≤ 100) := by
  unfold resolve_completed_missions
  constructor
  · exact resolve_fold_heat_in_range now rolls p.active_missions
      { profile := p, remaining := [], income := 0, completed := 0,
        failed := 0, idx := 0 } ⟨h3, h4⟩
  · intro hsig
    have h := resolve_fold_meters_in_range now rolls p.active_missions
      { profile := p, remaining := [], income := 0, completed := 0,
        failed := 0, idx := 0 } hsig ⟨h1, h2, h3, h4⟩
    exact ⟨h.1, h.2.1⟩

/-- A finished mission with conventional delta signs. -/
def fixGoodMissionDone : ActiveMission :=
  { mission_id := "m1", name := "Routine Call", ends_at := 50, dispatched_at := 0,
    operating_cost := 10, potential_reward := 100, success_chance := 100,
    heat_change := 2, reputation_success := 3, reputation_failure := -2 }

/-- Profile fixture with both meters near the top and one finished mission. -/
def fixHighMeters : PlayerProfile := { defaultProfile 6 with
  active_missions := [fixGoodMissionDone], reputation := 99, heat_level := 99 }

/-- Witness for `resolve_meters_stay_in_range` at meters 99/99 and one
settled mission with deltas (+3, −2, heat +2). -/
theorem resolve_meters_stay_in_range_witness :
    ((0:ℤ) ≤ fixHighMeters.reputation ∧ fixHighMeters.reputation ≤ 100 ∧
     (0:ℤ) ≤ fixHighMeters.heat_level ∧ fixHighMeters.heat_level ≤ 100) ∧
    ((0 ≤ (resolve_completed_missions fixHighMeters 100 (fun _ => 1)).1.heat_level ∧
      (resolve_completed_missions fixHighMeters 100 (fun _ => 1)).1.heat_level ≤ 100) ∧
     ((∀ am ∈ fixHighMeters.active_missions,
         0 ≤ am.reputation_success ∧ am.reputation_failure ≤ 0) →
       0 ≤ (resolve_completed_missions fixHighMeters 100 (fun _ => 1)).1.reputation ∧
       (resolve_completed_missions fixHighMeters 100 (fun _ => 1)).1.reputation ≤ 100)) :=
  ⟨⟨by decide, by decide, by decide, by decide⟩,
   resolve_meters_stay_in_range fixHighMeters 100 (fun _ => 1)
     (by decide) (by decide) (by decide) (by decide)⟩

/-- With automation disabled, one catch-up tick only accrues the recurring
tick cost. -/
lemma catchupTick_automation_off (content : ContentLoader) (now : ℤ)
    (balance : Option ℤ) (acc : CatchupAcc)
    (h : acc.profile.automation_enabled = false) :
    catchupTick content now balance acc =
      { acc with total_expenses :=
          acc.total_expenses + (calculate_tick_costs content acc.profile).total } := by
  unfold catchupTick
  simp [h]

/-- With automation disabled, the whole catch-up loop spends
`n × tick_cost` and leaves the profile untouched. -/
lemma catchup_loop_automation_off (content : ContentLoader) (now : ℤ)
    (balance : Option ℤ) (p : PlayerProfile) (h : p.automation_enabled = false) :
    ∀ (n : ℕ) (acc : CatchupAcc), acc.profile = p →
      (List.range n).foldl (fun a _ => catchupTick content now balance a) acc =
        { profile := p, total_income := acc.total_income,
          total_expenses := acc.total_expenses + n * (calculate_tick_costs content p).total,
          missions_completed := acc.missions_completed,
          missions_failed := acc.missions_failed }
  | 0, acc, hacc => by
    cases acc
    simp at hacc
    simp [hacc]
  | n + 1, acc, hacc => by
    rw [List.range_succ, List.foldl_append,
        catchup_loop_automation_off content now balance p h n acc hacc]
    simp only [List.foldl_cons, List.foldl_nil]
    rw [catchupTick_automation_off content now balance _ h]
    simp only [CatchupAcc.mk.injEq, true_and, and_true]
    push_cast
    ring

/-- C1 (spec-modelled `calculate_tick_costs`): with automation disabled and
exactly 3 ticks owed, catch-up accrues the flat per-tick recurring cost
three times, auto-dispatches nothing (`active_missions` and the automation
tallies untouched), and attempts exactly one ledger transaction of
`−3 × tick_cost`. -/
theorem catchup_automation_off_three_ticks (content : ContentLoader)
    (p : PlayerProfile) (now : ℤ) (balance : Option ℤ) (bank_ok : Bool) (t : ℤ)
    (h1 : p.automation_enabled = false)
    (h2 : p.last_tick_ts = some t)
    (h3 : 900 ≤ now - t) (h4 : now - t < 1200)
    (hC : 0 < (calculate_tick_costs content p).total) :
    (process_catchup content p now balance true bank_ok).ticks = 3 ∧
    (process_catchup content p now balance true bank_ok).total_income = 0 ∧
    (process_catchup content p now balance true bank_ok).total_expenses =
      3 * (calculate_tick_costs content p).total ∧
    (process_catchup content p now balance true bank_ok).missions_completed = 0 ∧
    (process_catchup content p now balance true bank_ok).missions_failed = 0 ∧
    (process_catchup content p now balance true bank_ok).profile.active_missions =
      p.active_missions ∧
    (process_catchup content p now balance true bank_ok).ledger_tx =
      some (-(3 * (calculate_tick_costs content p).total)) := by
  have h300 : ((TICK_INTERVAL_MINUTES : ℤ) * 60) = 300 := by
    unfold TICK_INTERVAL_MINUTES
    norm_num
  have hticks : ticks_owed t now = 3 := by
    unfold ticks_owed
    rw [min_eq_left (by unfold MAX_CATCHUP_HOURS; push_cast; omega), h300,
        Int.tdiv_eq_ediv (by omega) (by norm_num)]
    omega
  have hfold := catchup_loop_automation_off content now balance p h1 (3 : ℤ).toNat
    { profile := p, total_income := 0, total_expenses := 0,
      missions_completed := 0, missions_failed := 0 } rfl
  have h3nat : (((3 : ℤ).toNat : ℕ) : ℤ) = 3 := by norm_num
  have hnet : (0 : ℤ) - (0 + ((3 : ℤ).toNat : ℤ) *
      (calculate_tick_costs content p).total) ≠ 0 := by
    rw [h3nat]
    omega
  unfold process_catchup
  rw [h2]
  simp only [hticks, if_neg (by norm_num : ¬ (3 : ℤ) = 0), hfold]
  refine ⟨trivial, trivial, ?_, trivial, trivial, ?_, ?_⟩
  · rw [h3nat]
    ring
  · split <;> rfl
  · rw [if_pos ⟨hnet, trivial⟩, h3nat]
    have : (0 : ℤ) - (0 + 3 * (calculate_tick_costs content p).total) =
        -(3 * (calculate_tick_costs content p).total) := by ring
    rw [this]

/-- Profile fixture for the automation-off catch-up witness: one salaried
dispatcher, automation disabled, ticking since time 0. -/
def fixSalaried : PlayerProfile := { defaultProfile 5 with
  staff_roster := fupd (fun _ => 0) "dispatcher" 1,
  last_tick_ts := some 0 }

/-- Witness for `catchup_automation_off_three_ticks`: 1000 elapsed seconds
owe exactly 3 ticks at a per-tick cost of 5, yielding one ledger
transaction of −15. -/
theorem catchup_automation_off_three_ticks_witness :
    (fixSalaried.automation_enabled = false ∧ fixSalaried.last_tick_ts = some 0 ∧
     (900 : ℤ) ≤ 1000 - 0 ∧ (1000 : ℤ) - 0 < 1200 ∧
     0 < (calculate_tick_costs fixContent fixSalaried).total) ∧
    ((process_catchup fixContent fixSalaried 1000 none true true).ticks = 3 ∧
     (process_catchup fixContent fixSalaried 1000 none true true).total_income = 0 ∧
     (process_catchup fixContent fixSalaried 1000 none true true).total_expenses =
       3 * (calculate_tick_costs fixContent fixSalaried).total ∧
     (process_catchup fixContent fixSalaried 1000 none true true).missions_completed = 0 ∧
     (process_catchup fixContent fixSalaried 1000 none true true).missions_failed = 0 ∧
     (process_catchup fixContent fixSalaried 1000 none true true).profile.active_missions =
       fixSalaried.active_missions ∧
     (process_catchup fixContent fixSalaried 1000 none true true).ledger_tx =
       some (-(3 * (calculate_tick_costs fixContent fixSalaried).total))) :=
  ⟨⟨rfl, rfl, by decide, by decide, by decide⟩,
   catchup_automation_off_three_ticks fixContent fixSalaried 1000 none true 0
     rfl rfl (by decide) (by decide) (by decide)⟩

/-- Association-list lookup on a cons cell. -/
lemma lookupA_cons {α : Type} (hd : String × α) (tl : List (String × α)) (k : String) :
    lookupA (hd :: tl) k = if hd.1 == k then some hd.2 else lookupA tl k := by
  unfold lookupA
  rw [List.find?_cons]
  by_cases h : hd.1 == k <;> simp [h]

/-- Looking up a key just written by the dict-update `setA` yields the
written value. -/
lemma lookupA_setA {α : Type} (l : List (String × α)) (k : String) (v : α) :
    lookupA (setA l k v) k = some v := by
  unfold setA
  split
  · rename_i hfound
    induction l with
    | nil => simp at hfound
    | cons hd tl ih =>
      by_cases hk : (hd.1 == k) = true
      · have hkeq : hd.1 = k := by simpa using hk
        simp [List.map_cons, hkeq, lookupA_cons]
      · have hk' : (hd.1 == k) = false := by simp_all
        simp only [List.find?_cons, hk', cond_false] at hfound
        simp only [List.map_cons, hk']
        rw [show (if false = true then (k, v) else hd) = hd from rfl,
            lookupA_cons, if_neg (by simp [hk'])]
        exact ih hfound
  · rename_i hfound
    rw [Option.not_isSome_iff_eq_none] at hfound
    unfold lookupA at *
    rw [List.find?_append, hfound]
    simp

/-- C8: for catalogued targets, equipment assignment succeeds iff the
required slot capacity (`slot_size × quantity`) fits in the bucket's free
slots and at least `quantity` unassigned pieces exist; success adds exactly
`quantity` to the target's assignment count, and failure leaves the profile
completely unchanged — for both the vehicle and the staff variant. -/
theorem assign_equipment_evaluate_then_commit (p : PlayerProfile)
    (vid sid eid : String) (q : ℕ)
    (vehicles : List (String × Vehicle)) (staff_catalog : List (String × Staff))
    (equipment_catalog : List (String × Equipment)) (v : Vehicle) (s : Staff)
    (e : Equipment) (hv : lookupA vehicles vid = some v)
    (hs : lookupA staff_catalog sid = some s)
    (he : lookupA equipment_catalog eid = some e) :
    (((p.assign_equipment_to_vehicle vid eid q vehicles equipment_catalog).1 = true) ↔
      (e.slot_size * q ≤ (p.get_vehicle_slot_usage vid vehicles equipment_catalog).2 -
          (p.get_vehicle_slot_usage vid vehicles equipment_catalog).1 ∧
       q ≤ p.get_unassigned_equipment eid)) ∧
    ((p.assign_equipment_to_vehicle vid eid q vehicles equipment_catalog).1 = true →
      (lookupA ((p.assign_equipment_to_vehicle vid eid q vehicles
          equipment_catalog).2.get_equipment_for_vehicle vid) eid).getD 0 =
        (lookupA (p.get_equipment_for_vehicle vid) eid).getD 0 + q) ∧
    ((p.assign_equipment_to_vehicle vid eid q vehicles equipment_catalog).1 = false →
      (p.assign_equipment_to_vehicle vid eid q vehicles equipment_catalog).2 = p) ∧
    (((p.assign_equipment_to_staff sid eid q staff_catalog equipment_catalog).1 = true) ↔
      (e.slot_size * q ≤ (p.get_staff_slot_usage sid staff_catalog equipment_catalog).2 -
          (p.get_staff_slot_usage sid staff_catalog equipment_catalog).1 ∧
       q ≤ p.get_unassigned_equipment eid)) ∧
    ((p.assign_equipment_to_staff sid eid q staff_catalog equipment_catalog).1 = true →
      (lookupA ((p.assign_equipment_to_staff sid eid q staff_catalog
          equipment_catalog).2.get_equipment_for_staff sid) eid).getD 0 =
        (lookupA (p.get_equipment_for_staff sid) eid).getD 0 + q) ∧
    ((p.assign_equipment_to_staff sid eid q staff_catalog equipment_catalog).1 = false →
      (p.assign_equipment_to_staff sid eid q staff_catalog equipment_catalog).2 = p) := by
  have hveh : p.assign_equipment_to_vehicle vid eid q vehicles equipment_catalog =
      (let current := p.get_equipment_for_vehicle vid
       let usage := p.get_vehicle_slot_usage vid vehicles equipment_catalog
       let available_slots := usage.2 - usage.1
       let needed_slots := e.slot_size * q
       if available_slots < needed_slots then (false, p)
       else if p.get_unassigned_equipment eid < q then (false, p)
       else
         let updated := setA current eid ((lookupA current eid).getD 0 + q)
         (true, { p with vehicleAssignments := setA p.vehicleAssignments vid updated })) := by
    unfold PlayerProfile.assign_equipment_to_vehicle
    rw [hv, he]
  have hstf : p.assign_equipment_to_staff sid eid q staff_catalog equipment_catalog =
      (let current := p.get_equipment_for_staff sid
       let usage := p.get_staff_slot_usage sid staff_catalog equipment_catalog
       let available_slots := usage.2 - usage.1
       let needed_slots := e.slot_size * q
       if available_slots < needed_slots then (false, p)
       else if p.get_unassigned_equipment eid < q then (false, p)
       else
         let updated := setA current eid ((lookupA current eid).getD 0 + q)
         (true, { p with staffAssignments := setA p.staffAssignments sid updated })) := by
    unfold PlayerProfile.assign_equipment_to_staff
    rw [hs, he]
  rw [hveh, hstf]
  dsimp only
  constructor
  · split_ifs with hslots hinv <;> simp <;> omega
  constructor
  · split_ifs with hslots hinv
    · simp
    · simp
    · intro _
      unfold PlayerProfile.get_equipment_for_vehicle
      dsimp only
      rw [lookupA_setA, Option.getD_some, lookupA_setA, Option.getD_some]
  constructor
  · split_ifs with hslots hinv <;> simp
  constructor
  · split_ifs with hslots hinv <;> simp <;> omega
  constructor
  · split_ifs with hslots hinv
    · simp
    · simp
    · intro _
      unfold PlayerProfile.get_equipment_for_staff
      dsimp only
      rw [lookupA_setA, Option.getD_some, lookupA_setA, Option.getD_some]
  · split_ifs with hslots hinv <;> simp

/-- Equipment fixture occupying 3 slots. -/
def fixVest : Equipment :=
  { name := "Tactical Rig", target := "vehicle", purchase_cost := 100,
    sell_value := 50, effect_type := "success_bonus", effect_value := ⟨1, 10⟩,
    slot_size := 3, min_station_level := 1, allowed_vehicle_types := [],
    allowed_staff_types := [] }

/-- Equipment catalog fixture. -/
def fixEquipCatalog : List (String × Equipment) := [("vest", fixVest)]

/-- Profile owning one patrol car (2 equipment slots) and one vest. -/
def fixCarOwner : PlayerProfile := { defaultProfile 7 with
  owned_vehicles := fupd (fun _ => 0) "car" 1,
  equipment_inventory := fupd (fun _ => 0) "vest" 1 }

/-- Witness for `assign_equipment_evaluate_then_commit`, instantiating the
spec scenario: the vehicle bucket has 2 free slots and the equipment needs
3, so the assignment returns false and the profile is unchanged. -/
theorem assign_equipment_evaluate_then_commit_witness :
    (lookupA [("car", fixCar)] "car" = some fixCar ∧
     lookupA [("dispatcher", fixDispatcher)] "dispatcher" = some fixDispatcher ∧
     lookupA fixEquipCatalog "vest" = some fixVest) ∧
    ((fixCarOwner.assign_equipment_to_vehicle "car" "vest" 1
        [("car", fixCar)] fixEquipCatalog).1 = false ∧
     (fixCarOwner.assign_equipment_to_vehicle "car" "vest" 1
        [("car", fixCar)] fixEquipCatalog).2 = fixCarOwner) :=
  ⟨⟨rfl, rfl, rfl⟩, by
    have h := assign_equipment_evaluate_then_commit fixCarOwner "car" "dispatcher"
      "vest" 1 [("car", fixCar)] [("dispatcher", fixDispatcher)] fixEquipCatalog
      fixCar fixDispatcher fixVest rfl rfl rfl
    exact ⟨by decide, h.2.2.1 (by decide)⟩⟩

/-- Number of unexpired vehicle-cooldown entries (busy units) for one id. -/
def busyV (p : PlayerProfile) (id : String) (now : ℤ) : ℕ :=
  ((p.vehicle_cooldowns id).filter (fun ts => now < ts)).length

/-- Number of unexpired staff-cooldown entries for one id. -/
def busyS (p : PlayerProfile) (id : String) (now : ℤ) : ℕ :=
  ((p.staff_cooldowns id).filter (fun ts => now < ts)).length

/-- Point lookup after `fupd` at the written key. -/
lemma fupd_same {α : Type} (f : String → α) (k : String) (v : α) : fupd f k v k = v := by
  simp [fupd]

/-- Point lookup after `fupd` at another key. -/
lemma fupd_other {α : Type} (f : String → α) (k x : String) (v : α) (h : x ≠ k) :
    fupd f k v x = f x := by
  simp [fupd, h]

/-- Lazy pruning does not change the number of unexpired entries. -/
lemma busyV_prune (p : PlayerProfile) (now : ℤ) (id : String) :
    busyV (p.prune_vehicle_cooldowns now) id now = busyV p id now := by
  unfold busyV PlayerProfile.prune_vehicle_cooldowns
  simp [List.filter_filter]

/-- Lazy pruning does not change the number of unexpired staff entries. -/
lemma busyS_prune (p : PlayerProfile) (now : ℤ) (id : String) :
    busyS (p.prune_staff_cooldowns now) id now = busyS p id now := by
  unfold busyS PlayerProfile.prune_staff_cooldowns
  simp [List.filter_filter]

/-- Availability is exactly the gap between busy and owned:
`busy + available = max owned busy`. -/
lemma busyV_add_avail (p : PlayerProfile) (id : String) (now : ℤ) :
    busyV p id now + p.get_available_vehicle_count id now =
      max (p.owned_vehicles id) (busyV p id now) := by
  unfold busyV PlayerProfile.get_available_vehicle_count PlayerProfile.get_vehicle_count
  dsimp only
  split <;> omega

/-- Staff counterpart of `busyV_add_avail`. -/
lemma busyS_add_avail (p : PlayerProfile) (id : String) (now : ℤ) :
    busyS p id now + p.get_available_staff_count id now =
      max (p.staff_roster id) (busyS p id now) := by
  unfold busyS PlayerProfile.get_available_staff_count PlayerProfile.get_staff_count
  dsimp only
  split <;> omega

/-- One vehicle-allocation step: all non-cooldown state is untouched and the
busy count of every id grows by at most the id's availability
(`busy' ≤ max owned busy`). -/
lemma allocateVehiclesStep_spec (t now : ℤ) (q : PlayerProfile) (kv : String × ℕ) :
    (allocateVehiclesStep t now q kv).owned_vehicles = q.owned_vehicles ∧
    (allocateVehiclesStep t now q kv).staff_roster = q.staff_roster ∧
    (allocateVehiclesStep t now q kv).staff_cooldowns = q.staff_cooldowns ∧
    (allocateVehiclesStep t now q kv).active_missions = q.active_missions ∧
    (allocateVehiclesStep t now q kv).total_expenses_paid = q.total_expenses_paid ∧
    ∀ id, busyV (allocateVehiclesStep t now q kv) id now ≤
      max (q.owned_vehicles id) (busyV q id now) := by
  unfold allocateVehiclesStep
  split
  · exact ⟨rfl, rfl, rfl, rfl, rfl, fun id => le_max_right _ _⟩
  · dsimp only
    set q1 := if q.get_vehicle_count kv.1 = 0 then q else q.prune_vehicle_cooldowns now with hq1
    have hq1fields : q1.owned_vehicles = q.owned_vehicles ∧ q1.staff_roster = q.staff_roster ∧
        q1.staff_cooldowns = q.staff_cooldowns ∧ q1.active_missions = q.active_missions ∧
        q1.total_expenses_paid = q.total_expenses_paid := by
      rw [hq1]
      split <;> exact ⟨rfl, rfl, rfl, rfl, rfl⟩
    have hq1busy : ∀ id, busyV q1 id now = busyV q id now := by
      intro id
      rw [hq1]
      split
      · rfl
      · exact busyV_prune q now id
    refine ⟨hq1fields.1, hq1fields.2.1, hq1fields.2.2.1, hq1fields.2.2.2.1,
      hq1fields.2.2.2.2, ?_⟩
    intro id
    by_cases hid : id = kv.1
    · rw [hid]
      unfold busyV
      dsimp only
      rw [fupd_same, List.filter_append, List.length_append]
      have hrep : ((List.replicate (min kv.2 (q.get_available_vehicle_count kv.1 now)) t).filter
          (fun ts => decide (now < ts))).length ≤
          min kv.2 (q.get_available_vehicle_count kv.1 now) :=
        le_trans (List.length_filter_le _ _) (le_of_eq (List.length_replicate _ _))
      have hbusy1 : ((q1.vehicle_cooldowns kv.1).filter (fun ts => decide (now < ts))).length =
          busyV q kv.1 now := hq1busy kv.1
      have havail := busyV_add_avail q kv.1 now
      have hmin : min kv.2 (q.get_available_vehicle_count kv.1 now) ≤
          q.get_available_vehicle_count kv.1 now := min_le_right _ _
      unfold busyV at *
      omega
    · unfold busyV
      dsimp only
      rw [fupd_other _ _ _ _ hid]
      have : ((q1.vehicle_cooldowns id).filter (fun ts => decide (now < ts))).length =
          busyV q id now := hq1busy id
      rw [this]
      exact le_max_right _ _

/-- Staff counterpart of `allocateVehiclesStep_spec`. -/
lemma allocateStaffStep_spec (t now : ℤ) (q : PlayerProfile) (kv : String × ℕ) :
    (allocateStaffStep t now q kv).owned_vehicles = q.owned_vehicles ∧
    (allocateStaffStep t now q kv).staff_roster = q.staff_roster ∧
    (allocateStaffStep t now q kv).vehicle_cooldowns = q.vehicle_cooldowns ∧
    (allocateStaffStep t now q kv).active_missions = q.active_missions ∧
    (allocateStaffStep t now q kv).total_expenses_paid = q.total_expenses_paid ∧
    ∀ id, busyS (allocateStaffStep t now q kv) id now ≤
      max (q.staff_roster id) (busyS q id now) := by
  unfold allocateStaffStep
  split
  · exact ⟨rfl, rfl, rfl, rfl, rfl, fun id => le_max_right _ _⟩
  · dsimp only
    set q1 := if q.get_staff_count kv.1 = 0 then q else q.prune_staff_cooldowns now with hq1
    have hq1fields : q1.owned_vehicles = q.owned_vehicles ∧ q1.staff_roster = q.staff_roster ∧
        q1.vehicle_cooldowns = q.vehicle_cooldowns ∧ q1.active_missions = q.active_missions ∧
        q1.total_expenses_paid = q.total_expenses_paid := by
      rw [hq1]
      split <;> exact ⟨rfl, rfl, rfl, rfl, rfl⟩
    have hq1busy : ∀ id, busyS q1 id now = busyS q id now := by
      intro id
      rw [hq1]
      split
      · rfl
      · exact busyS_prune q now id
    refine ⟨hq1fields.1, hq1fields.2.1, hq1fields.2.2.1, hq1fields.2.2.2.1,
      hq1fields.2.2.2.2, ?_⟩
    intro id
    by_cases hid : id = kv.1
    · rw [hid]
      unfold busyS
      dsimp only
      rw [fupd_same, List.filter_append, List.length_append]
      have hrep : ((List.replicate (min kv.2 (q.get_available_staff_count kv.1 now)) t).filter
          (fun ts => decide (now < ts))).length ≤
          min kv.2 (q.get_available_staff_count kv.1 now) :=
        le_trans (List.length_filter_le _ _) (le_of_eq (List.length_replicate _ _))
      have hbusy1 : ((q1.staff_cooldowns kv.1).filter (fun ts => decide (now < ts))).length =
          busyS q kv.1 now := hq1busy kv.1
      have havail := busyS_add_avail q kv.1 now
      have hmin : min kv.2 (q.get_available_staff_count kv.1 now) ≤
          q.get_available_staff_count kv.1 now := min_le_right _ _
      unfold busyS at *
      omega
    · unfold busyS
      dsimp only
      rw [fupd_other _ _ _ _ hid]
      have : ((q1.staff_cooldowns id).filter (fun ts => decide (now < ts))).length =
          busyS q id now := hq1busy id
      rw [this]
      exact le_max_right _ _

/-- Effect envelope of any vehicle-allocation activity starting from `p`:
only `vehicle_cooldowns` may change, and each id's busy count stays within
`max owned busy` of the starting state. -/
def vehAllocRel (now : ℤ) (p q : PlayerProfile) : Prop :=
  q.owned_vehicles = p.owned_vehicles ∧ q.staff_roster = p.staff_roster ∧
  q.staff_cooldowns = p.staff_cooldowns ∧ q.active_missions = p.active_missions ∧
  q.total_expenses_paid = p.total_expenses_paid ∧
  ∀ id, busyV q id now ≤ max (p.owned_vehicles id) (busyV p id now)

/-- Staff counterpart of `vehAllocRel`. -/
def staffAllocRel (now : ℤ) (p q : PlayerProfile) : Prop :=
  q.owned_vehicles = p.owned_vehicles ∧ q.staff_roster = p.staff_roster ∧
  q.vehicle_cooldowns = p.vehicle_cooldowns ∧ q.active_missions = p.active_missions ∧
  q.total_expenses_paid = p.total_expenses_paid ∧
  ∀ id, busyS q id now ≤ max (p.staff_roster id) (busyS p id now)

/-- The envelope is reflexive. -/
lemma vehAllocRel_refl (now : ℤ) (p : PlayerProfile) : vehAllocRel now p p :=
  ⟨rfl, rfl, rfl, rfl, rfl, fun _ => le_max_right _ _⟩

/-- The staff envelope is reflexive. -/
lemma staffAllocRel_refl (now : ℤ) (p : PlayerProfile) : staffAllocRel now p p :=
  ⟨rfl, rfl, rfl, rfl, rfl, fun _ => le_max_right _ _⟩

/-- The envelope composes. -/
lemma vehAllocRel_trans {now : ℤ} {p q r : PlayerProfile}
    (h : vehAllocRel now p q) (g : vehAllocRel now q r) : vehAllocRel now p r := by
  obtain ⟨h1, h2, h3, h4, h5, h6⟩ := h
  obtain ⟨g1, g2, g3, g4, g5, g6⟩ := g
  refine ⟨g1.trans h1, g2.trans h2, g3.trans h3, g4.trans h4, g5.trans h5, fun id => ?_⟩
  have hb := h6 id
  have gb := g6 id
  rw [h1] at gb
  omega

/-- The staff envelope composes. -/
lemma staffAllocRel_trans {now : ℤ} {p q r : PlayerProfile}
    (h : staffAllocRel now p q) (g : staffAllocRel now q r) : staffAllocRel now p r := by
  obtain ⟨h1, h2, h3, h4, h5, h6⟩ := h
  obtain ⟨g1, g2, g3, g4, g5, g6⟩ := g
  refine ⟨g1.trans h1, g2.trans h2, g3.trans h3, g4.trans h4, g5.trans h5, fun id => ?_⟩
  have hb := h6 id
  have gb := g6 id
  rw [h2] at gb
  omega

/-- `allocate_vehicles` stays within the envelope. -/
lemma allocate_vehicles_rel (t now : ℤ) :
    ∀ (counts : List (String × ℕ)) (p : PlayerProfile),
      vehAllocRel now p (p.allocate_vehicles counts t now)
  | [], p => vehAllocRel_refl now p
  | kv :: rest, p => by
    have hstep := allocateVehiclesStep_spec t now p kv
    have hrest := allocate_vehicles_rel t now rest (allocateVehiclesStep t now p kv)
    exact vehAllocRel_trans
      ⟨hstep.1, hstep.2.1, hstep.2.2.1, hstep.2.2.2.1, hstep.2.2.2.2.1, hstep.2.2.2.2.2⟩
      hrest

/-- `allocate_staff` stays within the staff envelope. -/
lemma allocate_staff_rel (t now : ℤ) :
    ∀ (counts : List (String × ℕ)) (p : PlayerProfile),
      staffAllocRel now p (p.allocate_staff counts t now)
  | [], p => staffAllocRel_refl now p
  | kv :: rest, p => by
    have hstep := allocateStaffStep_spec t now p kv
    have hrest := allocate_staff_rel t now rest (allocateStaffStep t now p kv)
    exact staffAllocRel_trans
      ⟨hstep.1, hstep.2.1, hstep.2.2.1, hstep.2.2.2.1, hstep.2.2.2.2.1, hstep.2.2.2.2.2⟩
      hrest

/-- The vehicle-allocation walk of `dispatch_mission` stays within the
envelope. -/
lemma dispatchAllocVehicles_rel (now : ℤ) :
    ∀ (l : List (String × Vehicle)) (p : PlayerProfile) (vt : String) (needed : ℕ),
      vehAllocRel now p (dispatchAllocVehicles now p l vt needed)
  | [], p, _, _ => vehAllocRel_refl now p
  | (vid, v) :: rest, p, vt, needed => by
    unfold dispatchAllocVehicles
    split
    · exact dispatchAllocVehicles_rel now rest p vt needed
    · split
      · exact vehAllocRel_refl now p
      · dsimp only
        split
        · exact dispatchAllocVehicles_rel now rest p vt needed
        · exact vehAllocRel_trans (allocate_vehicles_rel _ now _ p)
            (dispatchAllocVehicles_rel now rest _ vt _)

/-- The staff-allocation walk of `dispatch_mission` stays within the staff
envelope. -/
lemma dispatchAllocStaff_rel (now : ℤ) :
    ∀ (l : List (String × Staff)) (p : PlayerProfile) (st : String) (needed : ℕ),
      staffAllocRel now p (dispatchAllocStaff now p l st needed)
  | [], p, _, _ => staffAllocRel_refl now p
  | (sid, s) :: rest, p, st, needed => by
    unfold dispatchAllocStaff
    split
    · exact dispatchAllocStaff_rel now rest p st needed
    · split
      · exact staffAllocRel_refl now p
      · dsimp only
        split
        · exact dispatchAllocStaff_rel now rest p st needed
        · exact staffAllocRel_trans (allocate_staff_rel _ now _ p)
            (dispatchAllocStaff_rel now rest _ st _)

/-- The per-requirement fold over vehicle types stays within the envelope. -/
lemma vehWalk_rel (now : ℤ) (catalog : List (String × Vehicle)) :
    ∀ (reqs : List (String × ℕ)) (p : PlayerProfile),
      vehAllocRel now p (reqs.foldl
        (fun q tq => dispatchAllocVehicles now q catalog tq.1 tq.2) p)
  | [], p => vehAllocRel_refl now p
  | tq :: rest, p =>
    vehAllocRel_trans (dispatchAllocVehicles_rel now catalog p tq.1 tq.2)
      (vehWalk_rel now catalog rest _)

/-- The per-requirement fold over staff types stays within the staff
envelope. -/
lemma staffWalk_rel (now : ℤ) (catalog : List (String × Staff)) :
    ∀ (reqs : List (String × ℕ)) (p : PlayerProfile),
      staffAllocRel now p (reqs.foldl
        (fun q tq => dispatchAllocStaff now q catalog tq.1 tq.2) p)
  | [], p => staffAllocRel_refl now p
  | tq :: rest, p =>
    staffAllocRel_trans (dispatchAllocStaff_rel now catalog p tq.1 tq.2)
      (staffWalk_rel now catalog rest _)

/-- C10: `dispatch_mission` checks nothing and always succeeds: it appends
exactly one `ActiveMission` with the frozen cost/reward/success-chance,
debits the full operating cost into lifetime expenses, returns the negative
operating cost, leaves every owned count unchanged, and adds at most the
currently-available number of busy cooldown entries per resource id
(possibly zero) — for every profile and mission, including ones that
`can_dispatch_mission` would reject. -/
theorem dispatch_mission_no_preconditions (content : ContentLoader)
    (p : PlayerProfile) (m : Mission) (now : ℤ) :
    (dispatch_mission content p m now).2.2.active_missions =
      p.active_missions ++ [(dispatch_mission content p m now).1] ∧
    (dispatch_mission content p m now).2.2.total_expenses_paid =
      p.total_expenses_paid + (calculate_mission_operating_costs content p m).total ∧
    (dispatch_mission content p m now).2.1 =
      -(calculate_mission_operating_costs content p m).total ∧
    (dispatch_mission content p m now).1.operating_cost =
      (calculate_mission_operating_costs content p m).total ∧
    (dispatch_mission content p m now).1.potential_reward =
      calculate_mission_reward content p m ∧
    (dispatch_mission content p m now).1.success_chance =
      calculate_success_chance content p m now ∧
    (dispatch_mission content p m now).2.2.owned_vehicles = p.owned_vehicles ∧
    (dispatch_mission content p m now).2.2.staff_roster = p.staff_roster ∧
    (∀ id, busyV (dispatch_mission content p m now).2.2 id now ≤
      busyV p id now + p.get_available_vehicle_count id now) ∧
    (∀ id, busyS (dispatch_mission content p m now).2.2 id now ≤
      busyS p id now + p.get_available_staff_count id now) := by
  have hveh := vehWalk_rel now content.vehicles (counterItems m.required_vehicle_types) p
  set p1 := (counterItems m.required_vehicle_types).foldl
    (fun q tq => dispatchAllocVehicles now q content.vehicles tq.1 tq.2) p with hp1
  have hstf := staffWalk_rel now content.staff (counterItems m.required_staff_types) p1
  set p2 := (counterItems m.required_staff_types).foldl
    (fun q tq => dispatchAllocStaff now q content.staff tq.1 tq.2) p1 with hp2
  obtain ⟨v1, v2, v3, v4, v5, v6⟩ := hveh
  obtain ⟨s1, s2, s3, s4, s5, s6⟩ := hstf
  have hde : dispatch_mission content p m now =
      ({ mission_id := m.id, name := m.name,
         ends_at := now + 60 * (m.base_duration : ℤ), dispatched_at := now,
         operating_cost := (calculate_mission_operating_costs content p m).total,
         potential_reward := calculate_mission_reward content p m,
         success_chance := calculate_success_chance content p m now,
         heat_change := m.heat_change,
         reputation_success := m.reputation_change_success,
         reputation_failure := m.reputation_change_failure },
       -(calculate_mission_operating_costs content p m).total,
       { p2 with
         active_missions := p2.active_missions ++
           [{ mission_id := m.id, name := m.name,
              ends_at := now + 60 * (m.base_duration : ℤ), dispatched_at := now,
              operating_cost := (calculate_mission_operating_costs content p m).total,
              potential_reward := calculate_mission_reward content p m,
              success_chance := calculate_success_chance content p m now,
              heat_change := m.heat_change,
              reputation_success := m.reputation_change_success,
              reputation_failure := m.reputation_change_failure }],
         total_expenses_paid := p2.total_expenses_paid +
           (calculate_mission_operating_costs content p m).total }) := rfl
  rw [hde]
  refine ⟨?_, ?_, rfl, rfl, rfl, rfl, ?_, ?_, ?_, ?_⟩
  · dsimp only
    rw [s4, v4]
  · dsimp only
    rw [s5, v5]
  · dsimp only
    rw [s1, v1]
  · dsimp only
    rw [s2, v2]
  · intro id
    have hb2 : busyV { p2 with
        active_missions := p2.active_missions ++
          [{ mission_id := m.id, name := m.name,
             ends_at := now + 60 * (m.base_duration : ℤ), dispatched_at := now,
             operating_cost := (calculate_mission_operating_costs content p m).total,
             potential_reward := calculate_mission_reward content p m,
             success_chance := calculate_success_chance content p m now,
             heat_change := m.heat_change,
             reputation_success := m.reputation_change_success,
             reputation_failure := m.reputation_change_failure }],
        total_expenses_paid := p2.total_expenses_paid +
          (calculate_mission_operating_costs content p m).total } id now =
        busyV p2 id now := rfl
    rw [hb2]
    have hb1 : busyV p2 id now = busyV p1 id now := by
      unfold busyV
      rw [s3]
    rw [hb1]
    have := v6 id
    have havail := busyV_add_avail p id now
    omega
  · intro id
    have hb2 : busyS { p2 with
        active_missions := p2.active_missions ++
          [{ mission_id := m.id, name := m.name,
             ends_at := now + 60 * (m.base_duration : ℤ), dispatched_at := now,
             operating_cost := (calculate_mission_operating_costs content p m).total,
             potential_reward := calculate_mission_reward content p m,
             success_chance := calculate_success_chance content p m now,
             heat_change := m.heat_change,
             reputation_success := m.reputation_change_success,
             reputation_failure := m.reputation_change_failure }],
        total_expenses_paid := p2.total_expenses_paid +
          (calculate_mission_operating_costs content p m).total } id now =
        busyS p2 id now := rfl
    rw [hb2]
    have hbp1 : busyS p1 id now = busyS p id now := by
      unfold busyS
      rw [v3]
    have hs6 := s6 id
    rw [hbp1] at hs6
    rw [v2] at hs6
    have havail := busyS_add_avail p id now
    omega
